import Mathlib

set_option maxRecDepth 20000

/-!
Shallow embedding of the rblhost MCU-bootloader protocol engine.

This file embeds the protocol-relevant parts of the `rblhost` Rust sources
(`src/mboot.rs`, `src/mboot/packets.rs`, `src/mboot/packets/{command,data_phase,ping}.rs`,
`src/mboot/protocols/uart.rs`, `src/mboot/tags/{status,property,command,command_flag}.rs`,
`src/mboot/memory.rs`) into Lean and proves the checked properties about them.

Conventions:
* machine bytes and words are `Nat` (with explicit `% 256` / `% 2^16` / `% 2^32`
  where the Rust code relies on fixed-width wrap-around);
* Rust panics (`expect`, `unimplemented!`, `assert!`, out-of-bounds indexing) are
  modelled by `Option`, `none` standing for a panic;
* fallible Rust functions returning `Result<_, CommunicationError>` are modelled
  with `Except CommunicationError _`;
* the device side of an exchange is modelled by an explicit script: the list of
  results the transport reads would have produced.
-/

namespace Mboot

/-! ## CRC-16/XMODEM (`packets.rs`: `CRC_CHECK = crc::Crc::<u16>::new(&crc::CRC_16_XMODEM)`)

Polynomial 0x1021, initial value 0, no reflection, no final xor: the standard
MSB-first bitwise computation. -/

/-- One shift step of the CRC-16/XMODEM register. -/
def crc16Shift (crc : Nat) : Nat :=
  if 32768 ≤ crc % 65536 then ((crc % 65536) * 2) ^^^ 0x1021 % 65536 else (crc % 65536) * 2

/-- Fold one input byte into the CRC-16/XMODEM register. -/
def crc16Byte (crc b : Nat) : Nat :=
  let c0 := (crc ^^^ (b * 256)) % 65536
  let c1 := crc16Shift c0 % 65536
  let c2 := crc16Shift c1 % 65536
  let c3 := crc16Shift c2 % 65536
  let c4 := crc16Shift c3 % 65536
  let c5 := crc16Shift c4 % 65536
  let c6 := crc16Shift c5 % 65536
  let c7 := crc16Shift c6 % 65536
  crc16Shift c7 % 65536

/-- CRC-16/XMODEM checksum of a byte sequence (`CRC_CHECK.checksum`). -/
def crc16 (data : List Nat) : Nat :=
  data.foldl crc16Byte 0

/-! ## Frame construction (`packets.rs::construct_header`) -/

/-- Rust `construct_header(packet_code, data)`: `5A ‖ code ‖ len_lo len_hi ‖ crc_lo crc_hi ‖ data`,
with the CRC computed over `5A ‖ code ‖ len_lo len_hi ‖ data` (the crc bytes are
inserted at positions 4 and 5 after hashing). -/
def constructHeader (packetCode : Nat) (data : List Nat) : List Nat :=
  let l0 := data.length % 256
  let l1 := data.length / 256 % 256
  let crc := crc16 ([0x5A, packetCode, l0, l1] ++ data)
  [0x5A, packetCode, l0, l1, crc % 256, crc / 256] ++ data

/-- The payload of a constructed frame is everything after the 6 header bytes. -/
theorem constructHeader_drop6 (c : Nat) (d : List Nat) : (constructHeader c d).drop 6 = d := by
  simp [constructHeader]

/-! ## Errors (`protocols.rs::CommunicationError`)

The `SerialPortError`, `IOError` and `FileError` variants carry foreign library
errors in Rust; the payload is irrelevant to the protocol logic and is dropped. -/

/-- Communication error kinds, embedded from `protocols.rs`. -/
inductive CommunicationError where
  | SerialPortError
  | IOError
  | FileError
  | NACKSent
  | InvalidCrc
  | InvalidHeader
  | InvalidData
  | InvalidPacketReceived
  | ParseError (msg : String)
  | UnexpectedStatusRaw (status : Nat) (raw : Nat)
  | Aborted
  | UnsupportedPlatform
  | Timeout
deriving DecidableEq, Repr

/-! ## `slice::chunks` (used by `mboot.rs::send_command` on the data phase)

`data.chunks(m)` yields slices of length `m`, the last possibly shorter; it is
only defined for `m > 0` (Rust panics on `m = 0`, modelled by the empty result). -/

/-- Rust `slice::chunks(m)` on lists (`m = 0`, a Rust panic, yields `[]`). -/
def chunksList (m : Nat) (l : List α) : List (List α) :=
  if _h : m = 0 then []
  else
    match l with
    | [] => []
    | a :: t => ((a :: t).take m) :: chunksList m ((a :: t).drop m)
termination_by l.length
decreasing_by
  simp only [List.length_drop, List.length_cons]
  omega


/-! ## Status codes (`tags/status.rs`) -/

/-- Status codes of the bootloader, embedded from `tags/status.rs` (`#[repr(u32)] pub enum StatusCode`). -/
inductive StatusCode where
  | Success
  | Fail
  | ReadOnly
  | OutOfRange
  | InvalidArgument
  | Timeout
  | NoTransferInProgress
  | FlashSizeError
  | FlashAlignmentError
  | FlashAddressError
  | FlashAccessError
  | FlashProtectionViolation
  | FlashCommandFailure
  | FlashUnknownProperty
  | FlashEraseKeyError
  | FlashRegionExecuteOnly
  | FlashExecInRamNotReady
  | FlashCommandNotSupported
  | FlashReadOnlyProperty
  | FlashInvalidPropertyValue
  | FlashInvalidSpeculationOption
  | FlashEccError
  | FlashCompareError
  | FlashRegulationLoss
  | FlashInvalidWaitStateCycles
  | FlashOutOfDateCfpaPage
  | FlashBlankIfrPageData
  | FlashEncryptedRegionsEraseNotDoneAtOnce
  | FlashProgramVerificationNotAllowed
  | FlashHashCheckError
  | FlashSealedPfrRegion
  | FlashPfrRegionWriteBroken
  | FlashNmpaUpdateNotAllowed
  | FlashCmpaCfgDirectEraseNotAllowed
  | FlashPfrBankIsLocked
  | FlashCfpaScratchPageInvalid
  | FlashCfpaVersionRollbackDisallowed
  | FlashReadHidingAreaDisallowed
  | FlashModifyProtectedAreaDisallowed
  | FlashCommandOperationInProgress
  | I2cSlaveTxUnderrun
  | I2cSlaveRxOverrun
  | I2cArbitrationLost
  | SpiSlaveTxUnderrun
  | SpiSlaveRxOverrun
  | QspiFlashSizeError
  | QspiFlashAlignmentError
  | QspiFlashAddressError
  | QspiFlashCommandFailure
  | QspiFlashUnknownProperty
  | QspiNotConfigured
  | QspiCommandNotSupported
  | QspiCommandTimeout
  | QspiWriteFailure
  | OtfadSecurityViolation
  | OtfadLogicallyDisabled
  | OtfadInvalidKey
  | OtfadInvalidKeyBlob
  | SendingOperationConditionError
  | FlexspiSequenceExecutionTimeoutRt5xx
  | FlexspiInvalidSequenceRt5xx
  | FlexspiDeviceTimeoutRt5xx
  | FlexspiSequenceExecutionTimeout
  | FlexspiInvalidSequence
  | FlexspiDeviceTimeout
  | UnknownCommand
  | SecurityViolation
  | AbortDataPhase
  | PingError
  | NoResponse
  | NoResponseExpected
  | UnsupportedCommand
  | RomldrSectionOverrun
  | RomldrSignature
  | RomldrSectionLength
  | RomldrUnencryptedOnly
  | RomldrEofReached
  | RomldrChecksum
  | RomldrCrc32Error
  | RomldrUnknownCommand
  | RomldrIdNotFound
  | RomldrDataUnderrun
  | RomldrJumpReturned
  | RomldrCallFailed
  | RomldrKeyNotFound
  | RomldrSecureOnly
  | RomldrResetReturned
  | RomldrRollbackBlocked
  | RomldrInvalidSectionMacCount
  | RomldrUnexpectedCommand
  | RomldrBadSbkek
  | RomldrPendingJumpCommand
  | MemoryRangeInvalid
  | MemoryReadFailed
  | MemoryWriteFailed
  | MemoryCumulativeWrite
  | MemoryAppOverlapWithExecuteOnlyRegion
  | MemoryNotConfigured
  | MemoryAlignmentError
  | MemoryVerifyFailed
  | MemoryWriteProtected
  | MemoryAddressError
  | MemoryBlankCheckFailed
  | MemoryBlankPageReadDisallowed
  | MemoryProtectedPageReadDisallowed
  | MemoryPfrSpecRegionWriteBroken
  | MemoryUnsupportedCommand
  | UnknownProperty
  | ReadOnlyProperty
  | InvalidPropertyValue
  | AppCrcCheckPassed
  | AppCrcCheckFailed
  | AppCrcCheckInactive
  | AppCrcCheckInvalid
  | AppCrcCheckOutOfRange
  | PacketizerNoPingResponse
  | PacketizerInvalidPacketType
  | PacketizerInvalidCrc
  | PacketizerNoCommandResponse
  | ReliableUpdateSuccess
  | ReliableUpdateFail
  | ReliableUpdateInactive
  | ReliableUpdateBackupapplicationinvalid
  | ReliableUpdateStillinmainapplication
  | ReliableUpdateSwapsystemnotready
  | ReliableUpdateBackupbootloadernotready
  | ReliableUpdateSwapindicatoraddressinvalid
  | ReliableUpdateSwapsystemnotavailable
  | ReliableUpdateSwaptest
  | SerialNorEepromAddressInvalid
  | SerialNorEepromTransferError
  | SerialNorEepromTypeInvalid
  | SerialNorEepromSizeInvalid
  | SerialNorEepromCommandInvalid
  | RomApiNeedMoreData
  | RomApiBufferSizeNotEnough
  | RomApiInvalidBuffer
  | FlexspinandReadPageFail
  | FlexspinandReadCacheFail
  | FlexspinandEccCheckFail
  | FlexspinandPageLoadFail
  | FlexspinandPageExecuteFail
  | FlexspinandEraseBlockFail
  | FlexspinandWaitTimeout
  | FlexSpinandNotSupported
  | FlexSpinandFcbUpdateFail
  | FlexSpinandDbbtUpdateFail
  | FlexspinandWritealignmenterror
  | FlexspinandNotFound
  | FlexspinorProgramFail
  | FlexspinorEraseSectorFail
  | FlexspinorEraseAllFail
  | FlexspinorWaitTimeout
  | FlexspinorNotSupported
  | FlexspinorWriteAlignmentError
  | FlexspinorCommandFailure
  | FlexspinorSfdpNotFound
  | FlexspinorUnsupportedSfdpVersion
  | FlexspinorFlashNotFound
  | FlexspinorDtrReadDummyProbeFailed
  | OcotpReadFailure
  | OcotpProgramFailure
  | OcotpReloadFailure
  | OcotpWaitTimeout
  | SemcnorDeviceTimeout
  | SemcnorInvalidMemoryAddress
  | SemcnorUnmatchedCommandSet
  | SemcnorAddressAlignmentError
  | SemcnorInvalidCfiSignature
  | SemcnorCommandErrorNoOpToSuspend
  | SemcnorCommandErrorNoInfoAvailable
  | SemcnorBlockEraseCommandFailure
  | SemcnorBufferProgramCommandFailure
  | SemcnorProgramVerifyFailure
  | SemcnorEraseVerifyFailure
  | SemcnorInvalidCfgTag
  | SemcnandDeviceTimeout
  | SemcnandInvalidMemoryAddress
  | SemcnandNotEqualToOnePageSize
  | SemcnandMoreThanOnePageSize
  | SemcnandEccCheckFail
  | SemcnandInvalidOnfiParameter
  | SemcnandCannotEnableDeviceEcc
  | SemcnandSwitchTimingModeFailure
  | SemcnandProgramVerifyFailure
  | SemcnandEraseVerifyFailure
  | SemcnandInvalidReadbackBuffer
  | SemcnandInvalidCfgTag
  | SemcnandFailToUpdateFcb
  | SemcnandFailToUpdateDbbt
  | SemcnandDisallowOverwriteBcb
  | SemcnandOnlySupportOnfiDevice
  | SemcnandMoreThanMaxImageCopy
  | SemcnandDisorderedImageCopies
  | SpifinorProgramFail
  | SpifinorEraseSectorfail
  | SpifinorEraseAllFail
  | SpifinorWaitTimeout
  | SpifinorNotSupported
  | SpifinorWriteAlignmentError
  | SpifinorCommandFailure
  | SpifinorSfdpNotFound
  | EdgelockInvalidResponse
  | EdgelockResponseError
  | EdgelockAbort
  | EdgelockOperationFailed
  | EdgelockOtpProgramFailure
  | EdgelockOtpLocked
  | EdgelockOtpInvalidIdx
  | EdgelockInvalidLifecycle
  | OtpInvalidAddress
  | OtpProgramFail
  | OtpCrcFail
  | OtpError
  | OtpEccCrcFail
  | OtpLocked
  | OtpTimeout
  | OtpCrcCheckPass
  | OtpVerifyFail
  | SecuritySubsystemError
  | TpGeneralError
  | TpCryptoError
  | TpNullptrError
  | TpAlreadyinitialized
  | TpBuffersmall
  | TpAddressError
  | TpContainerInvalid
  | TpContainerentryinvalid
  | TpContainerentrynotfound
  | TpInvalidstateoperation
  | TpCommandError
  | TpPufError
  | TpFlashError
  | TpSecretboxError
  | TpPfrError
  | TpVerificationError
  | TpCfpaError
  | TpCmpaError
  | TpAddrOutOfRange
  | TpContainerAddrError
  | TpContainerAddrUnaligned
  | TpContainerBuffSmall
  | TpContainerNoEntry
  | TpCertAddrError
  | TpCertAddrUnaligned
  | TpCertOverlapping
  | TpPacketError
  | TpPacketDataError
  | TpUnknownCommand
  | TpSb3FileError
  | TpGeneralCriticalError
  | TpCryptoCriticalError
  | TpPufCriticalError
  | TpPfrCriticalError
  | TpPeripheralCriticalError
  | TpPrinceCriticalError
  | TpShaCheckCriticalError
  | IapInvalidArgument
  | IapOutOfMemory
  | IapReadDisallowed
  | IapCumulativeWrite
  | IapEraseFailure
  | IapCommandNotSupported
  | IapMemoryAccessDisabled
  | El2goProvSuccess
  | UnknownStatusCode
deriving DecidableEq, Repr

/-- Numeric discriminant of each status code, embedded from the `= value` discriminants in `tags/status.rs` (`impl From<StatusCode> for u32`). -/
def StatusCode.toU32 : StatusCode → Nat
  | .Success => 0
  | .Fail => 1
  | .ReadOnly => 2
  | .OutOfRange => 3
  | .InvalidArgument => 4
  | .Timeout => 5
  | .NoTransferInProgress => 6
  | .FlashSizeError => 100
  | .FlashAlignmentError => 101
  | .FlashAddressError => 102
  | .FlashAccessError => 103
  | .FlashProtectionViolation => 104
  | .FlashCommandFailure => 105
  | .FlashUnknownProperty => 106
  | .FlashEraseKeyError => 107
  | .FlashRegionExecuteOnly => 108
  | .FlashExecInRamNotReady => 109
  | .FlashCommandNotSupported => 111
  | .FlashReadOnlyProperty => 112
  | .FlashInvalidPropertyValue => 113
  | .FlashInvalidSpeculationOption => 114
  | .FlashEccError => 116
  | .FlashCompareError => 117
  | .FlashRegulationLoss => 118
  | .FlashInvalidWaitStateCycles => 119
  | .FlashOutOfDateCfpaPage => 132
  | .FlashBlankIfrPageData => 133
  | .FlashEncryptedRegionsEraseNotDoneAtOnce => 134
  | .FlashProgramVerificationNotAllowed => 135
  | .FlashHashCheckError => 136
  | .FlashSealedPfrRegion => 137
  | .FlashPfrRegionWriteBroken => 138
  | .FlashNmpaUpdateNotAllowed => 139
  | .FlashCmpaCfgDirectEraseNotAllowed => 140
  | .FlashPfrBankIsLocked => 141
  | .FlashCfpaScratchPageInvalid => 148
  | .FlashCfpaVersionRollbackDisallowed => 149
  | .FlashReadHidingAreaDisallowed => 150
  | .FlashModifyProtectedAreaDisallowed => 151
  | .FlashCommandOperationInProgress => 152
  | .I2cSlaveTxUnderrun => 200
  | .I2cSlaveRxOverrun => 201
  | .I2cArbitrationLost => 202
  | .SpiSlaveTxUnderrun => 300
  | .SpiSlaveRxOverrun => 301
  | .QspiFlashSizeError => 400
  | .QspiFlashAlignmentError => 401
  | .QspiFlashAddressError => 402
  | .QspiFlashCommandFailure => 403
  | .QspiFlashUnknownProperty => 404
  | .QspiNotConfigured => 405
  | .QspiCommandNotSupported => 406
  | .QspiCommandTimeout => 407
  | .QspiWriteFailure => 408
  | .OtfadSecurityViolation => 500
  | .OtfadLogicallyDisabled => 501
  | .OtfadInvalidKey => 502
  | .OtfadInvalidKeyBlob => 503
  | .SendingOperationConditionError => 1812
  | .FlexspiSequenceExecutionTimeoutRt5xx => 6000
  | .FlexspiInvalidSequenceRt5xx => 6001
  | .FlexspiDeviceTimeoutRt5xx => 6002
  | .FlexspiSequenceExecutionTimeout => 7000
  | .FlexspiInvalidSequence => 7001
  | .FlexspiDeviceTimeout => 7002
  | .UnknownCommand => 10000
  | .SecurityViolation => 10001
  | .AbortDataPhase => 10002
  | .PingError => 10003
  | .NoResponse => 10004
  | .NoResponseExpected => 10005
  | .UnsupportedCommand => 10006
  | .RomldrSectionOverrun => 10100
  | .RomldrSignature => 10101
  | .RomldrSectionLength => 10102
  | .RomldrUnencryptedOnly => 10103
  | .RomldrEofReached => 10104
  | .RomldrChecksum => 10105
  | .RomldrCrc32Error => 10106
  | .RomldrUnknownCommand => 10107
  | .RomldrIdNotFound => 10108
  | .RomldrDataUnderrun => 10109
  | .RomldrJumpReturned => 10110
  | .RomldrCallFailed => 10111
  | .RomldrKeyNotFound => 10112
  | .RomldrSecureOnly => 10113
  | .RomldrResetReturned => 10114
  | .RomldrRollbackBlocked => 10115
  | .RomldrInvalidSectionMacCount => 10116
  | .RomldrUnexpectedCommand => 10117
  | .RomldrBadSbkek => 10118
  | .RomldrPendingJumpCommand => 10119
  | .MemoryRangeInvalid => 10200
  | .MemoryReadFailed => 10201
  | .MemoryWriteFailed => 10202
  | .MemoryCumulativeWrite => 10203
  | .MemoryAppOverlapWithExecuteOnlyRegion => 10204
  | .MemoryNotConfigured => 10205
  | .MemoryAlignmentError => 10206
  | .MemoryVerifyFailed => 10207
  | .MemoryWriteProtected => 10208
  | .MemoryAddressError => 10209
  | .MemoryBlankCheckFailed => 10210
  | .MemoryBlankPageReadDisallowed => 10211
  | .MemoryProtectedPageReadDisallowed => 10212
  | .MemoryPfrSpecRegionWriteBroken => 10213
  | .MemoryUnsupportedCommand => 10214
  | .UnknownProperty => 10300
  | .ReadOnlyProperty => 10301
  | .InvalidPropertyValue => 10302
  | .AppCrcCheckPassed => 10400
  | .AppCrcCheckFailed => 10401
  | .AppCrcCheckInactive => 10402
  | .AppCrcCheckInvalid => 10403
  | .AppCrcCheckOutOfRange => 10404
  | .PacketizerNoPingResponse => 10500
  | .PacketizerInvalidPacketType => 10501
  | .PacketizerInvalidCrc => 10502
  | .PacketizerNoCommandResponse => 10503
  | .ReliableUpdateSuccess => 10600
  | .ReliableUpdateFail => 10601
  | .ReliableUpdateInactive => 10602
  | .ReliableUpdateBackupapplicationinvalid => 10603
  | .ReliableUpdateStillinmainapplication => 10604
  | .ReliableUpdateSwapsystemnotready => 10605
  | .ReliableUpdateBackupbootloadernotready => 10606
  | .ReliableUpdateSwapindicatoraddressinvalid => 10607
  | .ReliableUpdateSwapsystemnotavailable => 10608
  | .ReliableUpdateSwaptest => 10609
  | .SerialNorEepromAddressInvalid => 10700
  | .SerialNorEepromTransferError => 10701
  | .SerialNorEepromTypeInvalid => 10702
  | .SerialNorEepromSizeInvalid => 10703
  | .SerialNorEepromCommandInvalid => 10704
  | .RomApiNeedMoreData => 10800
  | .RomApiBufferSizeNotEnough => 10801
  | .RomApiInvalidBuffer => 10802
  | .FlexspinandReadPageFail => 20000
  | .FlexspinandReadCacheFail => 20001
  | .FlexspinandEccCheckFail => 20002
  | .FlexspinandPageLoadFail => 20003
  | .FlexspinandPageExecuteFail => 20004
  | .FlexspinandEraseBlockFail => 20005
  | .FlexspinandWaitTimeout => 20006
  | .FlexSpinandNotSupported => 20007
  | .FlexSpinandFcbUpdateFail => 20008
  | .FlexSpinandDbbtUpdateFail => 20009
  | .FlexspinandWritealignmenterror => 20010
  | .FlexspinandNotFound => 20011
  | .FlexspinorProgramFail => 20100
  | .FlexspinorEraseSectorFail => 20101
  | .FlexspinorEraseAllFail => 20102
  | .FlexspinorWaitTimeout => 20103
  | .FlexspinorNotSupported => 20104
  | .FlexspinorWriteAlignmentError => 20105
  | .FlexspinorCommandFailure => 20106
  | .FlexspinorSfdpNotFound => 20107
  | .FlexspinorUnsupportedSfdpVersion => 20108
  | .FlexspinorFlashNotFound => 20109
  | .FlexspinorDtrReadDummyProbeFailed => 20110
  | .OcotpReadFailure => 20200
  | .OcotpProgramFailure => 20201
  | .OcotpReloadFailure => 20202
  | .OcotpWaitTimeout => 20203
  | .SemcnorDeviceTimeout => 21100
  | .SemcnorInvalidMemoryAddress => 21101
  | .SemcnorUnmatchedCommandSet => 21102
  | .SemcnorAddressAlignmentError => 21103
  | .SemcnorInvalidCfiSignature => 21104
  | .SemcnorCommandErrorNoOpToSuspend => 21105
  | .SemcnorCommandErrorNoInfoAvailable => 21106
  | .SemcnorBlockEraseCommandFailure => 21107
  | .SemcnorBufferProgramCommandFailure => 21108
  | .SemcnorProgramVerifyFailure => 21109
  | .SemcnorEraseVerifyFailure => 21110
  | .SemcnorInvalidCfgTag => 21116
  | .SemcnandDeviceTimeout => 21200
  | .SemcnandInvalidMemoryAddress => 21201
  | .SemcnandNotEqualToOnePageSize => 21202
  | .SemcnandMoreThanOnePageSize => 21203
  | .SemcnandEccCheckFail => 21204
  | .SemcnandInvalidOnfiParameter => 21205
  | .SemcnandCannotEnableDeviceEcc => 21206
  | .SemcnandSwitchTimingModeFailure => 21207
  | .SemcnandProgramVerifyFailure => 21208
  | .SemcnandEraseVerifyFailure => 21209
  | .SemcnandInvalidReadbackBuffer => 21210
  | .SemcnandInvalidCfgTag => 21216
  | .SemcnandFailToUpdateFcb => 21217
  | .SemcnandFailToUpdateDbbt => 21218
  | .SemcnandDisallowOverwriteBcb => 21219
  | .SemcnandOnlySupportOnfiDevice => 21220
  | .SemcnandMoreThanMaxImageCopy => 21221
  | .SemcnandDisorderedImageCopies => 21222
  | .SpifinorProgramFail => 22000
  | .SpifinorEraseSectorfail => 22001
  | .SpifinorEraseAllFail => 22002
  | .SpifinorWaitTimeout => 22003
  | .SpifinorNotSupported => 22004
  | .SpifinorWriteAlignmentError => 22005
  | .SpifinorCommandFailure => 22006
  | .SpifinorSfdpNotFound => 22007
  | .EdgelockInvalidResponse => 30000
  | .EdgelockResponseError => 30001
  | .EdgelockAbort => 30002
  | .EdgelockOperationFailed => 30003
  | .EdgelockOtpProgramFailure => 30004
  | .EdgelockOtpLocked => 30005
  | .EdgelockOtpInvalidIdx => 30006
  | .EdgelockInvalidLifecycle => 30007
  | .OtpInvalidAddress => 52801
  | .OtpProgramFail => 52802
  | .OtpCrcFail => 52803
  | .OtpError => 52804
  | .OtpEccCrcFail => 52805
  | .OtpLocked => 52806
  | .OtpTimeout => 52807
  | .OtpCrcCheckPass => 52808
  | .OtpVerifyFail => 52009
  | .SecuritySubsystemError => 1515890085
  | .TpGeneralError => 80000
  | .TpCryptoError => 80001
  | .TpNullptrError => 80002
  | .TpAlreadyinitialized => 80003
  | .TpBuffersmall => 80004
  | .TpAddressError => 80005
  | .TpContainerInvalid => 80006
  | .TpContainerentryinvalid => 80007
  | .TpContainerentrynotfound => 80008
  | .TpInvalidstateoperation => 80009
  | .TpCommandError => 80010
  | .TpPufError => 80011
  | .TpFlashError => 80012
  | .TpSecretboxError => 80013
  | .TpPfrError => 80014
  | .TpVerificationError => 80015
  | .TpCfpaError => 80016
  | .TpCmpaError => 80017
  | .TpAddrOutOfRange => 80018
  | .TpContainerAddrError => 80019
  | .TpContainerAddrUnaligned => 80020
  | .TpContainerBuffSmall => 80021
  | .TpContainerNoEntry => 80022
  | .TpCertAddrError => 80023
  | .TpCertAddrUnaligned => 80024
  | .TpCertOverlapping => 80025
  | .TpPacketError => 80026
  | .TpPacketDataError => 80027
  | .TpUnknownCommand => 80028
  | .TpSb3FileError => 80029
  | .TpGeneralCriticalError => 80101
  | .TpCryptoCriticalError => 80102
  | .TpPufCriticalError => 80103
  | .TpPfrCriticalError => 80104
  | .TpPeripheralCriticalError => 80105
  | .TpPrinceCriticalError => 80106
  | .TpShaCheckCriticalError => 80107
  | .IapInvalidArgument => 100001
  | .IapOutOfMemory => 100002
  | .IapReadDisallowed => 100003
  | .IapCumulativeWrite => 100004
  | .IapEraseFailure => 100005
  | .IapCommandNotSupported => 100006
  | .IapMemoryAccessDisabled => 100007
  | .El2goProvSuccess => 0x5a5a5a5a
  | .UnknownStatusCode => 0xdeadbeef

/-- The discriminant table of `StatusCode` in declaration order of `tags/status.rs`. -/
def statusEntries : List (Nat × StatusCode) :=
  [ (0, StatusCode.Success),
    (1, StatusCode.Fail),
    (2, StatusCode.ReadOnly),
    (3, StatusCode.OutOfRange),
    (4, StatusCode.InvalidArgument),
    (5, StatusCode.Timeout),
    (6, StatusCode.NoTransferInProgress),
    (100, StatusCode.FlashSizeError),
    (101, StatusCode.FlashAlignmentError),
    (102, StatusCode.FlashAddressError),
    (103, StatusCode.FlashAccessError),
    (104, StatusCode.FlashProtectionViolation),
    (105, StatusCode.FlashCommandFailure),
    (106, StatusCode.FlashUnknownProperty),
    (107, StatusCode.FlashEraseKeyError),
    (108, StatusCode.FlashRegionExecuteOnly),
    (109, StatusCode.FlashExecInRamNotReady),
    (111, StatusCode.FlashCommandNotSupported),
    (112, StatusCode.FlashReadOnlyProperty),
    (113, StatusCode.FlashInvalidPropertyValue),
    (114, StatusCode.FlashInvalidSpeculationOption),
    (116, StatusCode.FlashEccError),
    (117, StatusCode.FlashCompareError),
    (118, StatusCode.FlashRegulationLoss),
    (119, StatusCode.FlashInvalidWaitStateCycles),
    (132, StatusCode.FlashOutOfDateCfpaPage),
    (133, StatusCode.FlashBlankIfrPageData),
    (134, StatusCode.FlashEncryptedRegionsEraseNotDoneAtOnce),
    (135, StatusCode.FlashProgramVerificationNotAllowed),
    (136, StatusCode.FlashHashCheckError),
    (137, StatusCode.FlashSealedPfrRegion),
    (138, StatusCode.FlashPfrRegionWriteBroken),
    (139, StatusCode.FlashNmpaUpdateNotAllowed),
    (140, StatusCode.FlashCmpaCfgDirectEraseNotAllowed),
    (141, StatusCode.FlashPfrBankIsLocked),
    (148, StatusCode.FlashCfpaScratchPageInvalid),
    (149, StatusCode.FlashCfpaVersionRollbackDisallowed),
    (150, StatusCode.FlashReadHidingAreaDisallowed),
    (151, StatusCode.FlashModifyProtectedAreaDisallowed),
    (152, StatusCode.FlashCommandOperationInProgress),
    (200, StatusCode.I2cSlaveTxUnderrun),
    (201, StatusCode.I2cSlaveRxOverrun),
    (202, StatusCode.I2cArbitrationLost),
    (300, StatusCode.SpiSlaveTxUnderrun),
    (301, StatusCode.SpiSlaveRxOverrun),
    (400, StatusCode.QspiFlashSizeError),
    (401, StatusCode.QspiFlashAlignmentError),
    (402, StatusCode.QspiFlashAddressError),
    (403, StatusCode.QspiFlashCommandFailure),
    (404, StatusCode.QspiFlashUnknownProperty),
    (405, StatusCode.QspiNotConfigured),
    (406, StatusCode.QspiCommandNotSupported),
    (407, StatusCode.QspiCommandTimeout),
    (408, StatusCode.QspiWriteFailure),
    (500, StatusCode.OtfadSecurityViolation),
    (501, StatusCode.OtfadLogicallyDisabled),
    (502, StatusCode.OtfadInvalidKey),
    (503, StatusCode.OtfadInvalidKeyBlob),
    (1812, StatusCode.SendingOperationConditionError),
    (6000, StatusCode.FlexspiSequenceExecutionTimeoutRt5xx),
    (6001, StatusCode.FlexspiInvalidSequenceRt5xx),
    (6002, StatusCode.FlexspiDeviceTimeoutRt5xx),
    (7000, StatusCode.FlexspiSequenceExecutionTimeout),
    (7001, StatusCode.FlexspiInvalidSequence),
    (7002, StatusCode.FlexspiDeviceTimeout),
    (10000, StatusCode.UnknownCommand),
    (10001, StatusCode.SecurityViolation),
    (10002, StatusCode.AbortDataPhase),
    (10003, StatusCode.PingError),
    (10004, StatusCode.NoResponse),
    (10005, StatusCode.NoResponseExpected),
    (10006, StatusCode.UnsupportedCommand),
    (10100, StatusCode.RomldrSectionOverrun),
    (10101, StatusCode.RomldrSignature),
    (10102, StatusCode.RomldrSectionLength),
    (10103, StatusCode.RomldrUnencryptedOnly),
    (10104, StatusCode.RomldrEofReached),
    (10105, StatusCode.RomldrChecksum),
    (10106, StatusCode.RomldrCrc32Error),
    (10107, StatusCode.RomldrUnknownCommand),
    (10108, StatusCode.RomldrIdNotFound),
    (10109, StatusCode.RomldrDataUnderrun),
    (10110, StatusCode.RomldrJumpReturned),
    (10111, StatusCode.RomldrCallFailed),
    (10112, StatusCode.RomldrKeyNotFound),
    (10113, StatusCode.RomldrSecureOnly),
    (10114, StatusCode.RomldrResetReturned),
    (10115, StatusCode.RomldrRollbackBlocked),
    (10116, StatusCode.RomldrInvalidSectionMacCount),
    (10117, StatusCode.RomldrUnexpectedCommand),
    (10118, StatusCode.RomldrBadSbkek),
    (10119, StatusCode.RomldrPendingJumpCommand),
    (10200, StatusCode.MemoryRangeInvalid),
    (10201, StatusCode.MemoryReadFailed),
    (10202, StatusCode.MemoryWriteFailed),
    (10203, StatusCode.MemoryCumulativeWrite),
    (10204, StatusCode.MemoryAppOverlapWithExecuteOnlyRegion),
    (10205, StatusCode.MemoryNotConfigured),
    (10206, StatusCode.MemoryAlignmentError),
    (10207, StatusCode.MemoryVerifyFailed),
    (10208, StatusCode.MemoryWriteProtected),
    (10209, StatusCode.MemoryAddressError),
    (10210, StatusCode.MemoryBlankCheckFailed),
    (10211, StatusCode.MemoryBlankPageReadDisallowed),
    (10212, StatusCode.MemoryProtectedPageReadDisallowed),
    (10213, StatusCode.MemoryPfrSpecRegionWriteBroken),
    (10214, StatusCode.MemoryUnsupportedCommand),
    (10300, StatusCode.UnknownProperty),
    (10301, StatusCode.ReadOnlyProperty),
    (10302, StatusCode.InvalidPropertyValue),
    (10400, StatusCode.AppCrcCheckPassed),
    (10401, StatusCode.AppCrcCheckFailed),
    (10402, StatusCode.AppCrcCheckInactive),
    (10403, StatusCode.AppCrcCheckInvalid),
    (10404, StatusCode.AppCrcCheckOutOfRange),
    (10500, StatusCode.PacketizerNoPingResponse),
    (10501, StatusCode.PacketizerInvalidPacketType),
    (10502, StatusCode.PacketizerInvalidCrc),
    (10503, StatusCode.PacketizerNoCommandResponse),
    (10600, StatusCode.ReliableUpdateSuccess),
    (10601, StatusCode.ReliableUpdateFail),
    (10602, StatusCode.ReliableUpdateInactive),
    (10603, StatusCode.ReliableUpdateBackupapplicationinvalid),
    (10604, StatusCode.ReliableUpdateStillinmainapplication),
    (10605, StatusCode.ReliableUpdateSwapsystemnotready),
    (10606, StatusCode.ReliableUpdateBackupbootloadernotready),
    (10607, StatusCode.ReliableUpdateSwapindicatoraddressinvalid),
    (10608, StatusCode.ReliableUpdateSwapsystemnotavailable),
    (10609, StatusCode.ReliableUpdateSwaptest),
    (10700, StatusCode.SerialNorEepromAddressInvalid),
    (10701, StatusCode.SerialNorEepromTransferError),
    (10702, StatusCode.SerialNorEepromTypeInvalid),
    (10703, StatusCode.SerialNorEepromSizeInvalid),
    (10704, StatusCode.SerialNorEepromCommandInvalid),
    (10800, StatusCode.RomApiNeedMoreData),
    (10801, StatusCode.RomApiBufferSizeNotEnough),
    (10802, StatusCode.RomApiInvalidBuffer),
    (20000, StatusCode.FlexspinandReadPageFail),
    (20001, StatusCode.FlexspinandReadCacheFail),
    (20002, StatusCode.FlexspinandEccCheckFail),
    (20003, StatusCode.FlexspinandPageLoadFail),
    (20004, StatusCode.FlexspinandPageExecuteFail),
    (20005, StatusCode.FlexspinandEraseBlockFail),
    (20006, StatusCode.FlexspinandWaitTimeout),
    (20007, StatusCode.FlexSpinandNotSupported),
    (20008, StatusCode.FlexSpinandFcbUpdateFail),
    (20009, StatusCode.FlexSpinandDbbtUpdateFail),
    (20010, StatusCode.FlexspinandWritealignmenterror),
    (20011, StatusCode.FlexspinandNotFound),
    (20100, StatusCode.FlexspinorProgramFail),
    (20101, StatusCode.FlexspinorEraseSectorFail),
    (20102, StatusCode.FlexspinorEraseAllFail),
    (20103, StatusCode.FlexspinorWaitTimeout),
    (20104, StatusCode.FlexspinorNotSupported),
    (20105, StatusCode.FlexspinorWriteAlignmentError),
    (20106, StatusCode.FlexspinorCommandFailure),
    (20107, StatusCode.FlexspinorSfdpNotFound),
    (20108, StatusCode.FlexspinorUnsupportedSfdpVersion),
    (20109, StatusCode.FlexspinorFlashNotFound),
    (20110, StatusCode.FlexspinorDtrReadDummyProbeFailed),
    (20200, StatusCode.OcotpReadFailure),
    (20201, StatusCode.OcotpProgramFailure),
    (20202, StatusCode.OcotpReloadFailure),
    (20203, StatusCode.OcotpWaitTimeout),
    (21100, StatusCode.SemcnorDeviceTimeout),
    (21101, StatusCode.SemcnorInvalidMemoryAddress),
    (21102, StatusCode.SemcnorUnmatchedCommandSet),
    (21103, StatusCode.SemcnorAddressAlignmentError),
    (21104, StatusCode.SemcnorInvalidCfiSignature),
    (21105, StatusCode.SemcnorCommandErrorNoOpToSuspend),
    (21106, StatusCode.SemcnorCommandErrorNoInfoAvailable),
    (21107, StatusCode.SemcnorBlockEraseCommandFailure),
    (21108, StatusCode.SemcnorBufferProgramCommandFailure),
    (21109, StatusCode.SemcnorProgramVerifyFailure),
    (21110, StatusCode.SemcnorEraseVerifyFailure),
    (21116, StatusCode.SemcnorInvalidCfgTag),
    (21200, StatusCode.SemcnandDeviceTimeout),
    (21201, StatusCode.SemcnandInvalidMemoryAddress),
    (21202, StatusCode.SemcnandNotEqualToOnePageSize),
    (21203, StatusCode.SemcnandMoreThanOnePageSize),
    (21204, StatusCode.SemcnandEccCheckFail),
    (21205, StatusCode.SemcnandInvalidOnfiParameter),
    (21206, StatusCode.SemcnandCannotEnableDeviceEcc),
    (21207, StatusCode.SemcnandSwitchTimingModeFailure),
    (21208, StatusCode.SemcnandProgramVerifyFailure),
    (21209, StatusCode.SemcnandEraseVerifyFailure),
    (21210, StatusCode.SemcnandInvalidReadbackBuffer),
    (21216, StatusCode.SemcnandInvalidCfgTag),
    (21217, StatusCode.SemcnandFailToUpdateFcb),
    (21218, StatusCode.SemcnandFailToUpdateDbbt),
    (21219, StatusCode.SemcnandDisallowOverwriteBcb),
    (21220, StatusCode.SemcnandOnlySupportOnfiDevice),
    (21221, StatusCode.SemcnandMoreThanMaxImageCopy),
    (21222, StatusCode.SemcnandDisorderedImageCopies),
    (22000, StatusCode.SpifinorProgramFail),
    (22001, StatusCode.SpifinorEraseSectorfail),
    (22002, StatusCode.SpifinorEraseAllFail),
    (22003, StatusCode.SpifinorWaitTimeout),
    (22004, StatusCode.SpifinorNotSupported),
    (22005, StatusCode.SpifinorWriteAlignmentError),
    (22006, StatusCode.SpifinorCommandFailure),
    (22007, StatusCode.SpifinorSfdpNotFound),
    (30000, StatusCode.EdgelockInvalidResponse),
    (30001, StatusCode.EdgelockResponseError),
    (30002, StatusCode.EdgelockAbort),
    (30003, StatusCode.EdgelockOperationFailed),
    (30004, StatusCode.EdgelockOtpProgramFailure),
    (30005, StatusCode.EdgelockOtpLocked),
    (30006, StatusCode.EdgelockOtpInvalidIdx),
    (30007, StatusCode.EdgelockInvalidLifecycle),
    (52801, StatusCode.OtpInvalidAddress),
    (52802, StatusCode.OtpProgramFail),
    (52803, StatusCode.OtpCrcFail),
    (52804, StatusCode.OtpError),
    (52805, StatusCode.OtpEccCrcFail),
    (52806, StatusCode.OtpLocked),
    (52807, StatusCode.OtpTimeout),
    (52808, StatusCode.OtpCrcCheckPass),
    (52009, StatusCode.OtpVerifyFail),
    (1515890085, StatusCode.SecuritySubsystemError),
    (80000, StatusCode.TpGeneralError),
    (80001, StatusCode.TpCryptoError),
    (80002, StatusCode.TpNullptrError),
    (80003, StatusCode.TpAlreadyinitialized),
    (80004, StatusCode.TpBuffersmall),
    (80005, StatusCode.TpAddressError),
    (80006, StatusCode.TpContainerInvalid),
    (80007, StatusCode.TpContainerentryinvalid),
    (80008, StatusCode.TpContainerentrynotfound),
    (80009, StatusCode.TpInvalidstateoperation),
    (80010, StatusCode.TpCommandError),
    (80011, StatusCode.TpPufError),
    (80012, StatusCode.TpFlashError),
    (80013, StatusCode.TpSecretboxError),
    (80014, StatusCode.TpPfrError),
    (80015, StatusCode.TpVerificationError),
    (80016, StatusCode.TpCfpaError),
    (80017, StatusCode.TpCmpaError),
    (80018, StatusCode.TpAddrOutOfRange),
    (80019, StatusCode.TpContainerAddrError),
    (80020, StatusCode.TpContainerAddrUnaligned),
    (80021, StatusCode.TpContainerBuffSmall),
    (80022, StatusCode.TpContainerNoEntry),
    (80023, StatusCode.TpCertAddrError),
    (80024, StatusCode.TpCertAddrUnaligned),
    (80025, StatusCode.TpCertOverlapping),
    (80026, StatusCode.TpPacketError),
    (80027, StatusCode.TpPacketDataError),
    (80028, StatusCode.TpUnknownCommand),
    (80029, StatusCode.TpSb3FileError),
    (80101, StatusCode.TpGeneralCriticalError),
    (80102, StatusCode.TpCryptoCriticalError),
    (80103, StatusCode.TpPufCriticalError),
    (80104, StatusCode.TpPfrCriticalError),
    (80105, StatusCode.TpPeripheralCriticalError),
    (80106, StatusCode.TpPrinceCriticalError),
    (80107, StatusCode.TpShaCheckCriticalError),
    (100001, StatusCode.IapInvalidArgument),
    (100002, StatusCode.IapOutOfMemory),
    (100003, StatusCode.IapReadDisallowed),
    (100004, StatusCode.IapCumulativeWrite),
    (100005, StatusCode.IapEraseFailure),
    (100006, StatusCode.IapCommandNotSupported),
    (100007, StatusCode.IapMemoryAccessDisabled),
    (0x5a5a5a5a, StatusCode.El2goProvSuccess),
    (0xdeadbeef, StatusCode.UnknownStatusCode) ]

/-- Rust `StatusCode::try_from` (`derive_more::TryFrom` over the `u32` repr): the generated
implementation matches the value against each declared discriminant in order and fails
otherwise; embedded as a first-match lookup over the same pairs. -/
def StatusCode.tryFrom (n : Nat) : Option StatusCode :=
  (statusEntries.find? (fun p => p.1 == n)).map (fun p => p.2)

/-- Rust `StatusCode::is_success` (generated by `strum::EnumIs`). -/
def StatusCode.isSuccess : StatusCode → Bool
  | .Success => true
  | _ => false

/-- Rust `StatusCode::is_memory_blank_page_read_disallowed` (generated by `strum::EnumIs`). -/
def StatusCode.isMemoryBlankPageReadDisallowed : StatusCode → Bool
  | .MemoryBlankPageReadDisallowed => true
  | _ => false

/-- Little-endian 32-bit decoding of four bytes (`u32::from_le_bytes`). -/
def leWord4 (b0 b1 b2 b3 : Nat) : Nat :=
  b0 % 256 + 256 * (b1 % 256) + 65536 * (b2 % 256) + 16777216 * (b3 % 256)

/-- Rust `mboot.rs::parse_status`: decode a 4-byte little-endian status word; unknown
discriminants become `UnexpectedStatus(UnknownStatusCode, raw)`. The error variant
carries the status as its numeric discriminant (`UnexpectedStatusRaw`). -/
def parse_status (b0 b1 b2 b3 : Nat) : Except CommunicationError StatusCode :=
  let discriminant := leWord4 b0 b1 b2 b3
  match StatusCode.tryFrom discriminant with
  | some code => .ok code
  | none => .error (.UnexpectedStatusRaw (StatusCode.UnknownStatusCode.toU32) discriminant)

/-! ## Command flag (`tags/command_flag.rs`) -/

/-- Rust `CommandFlag`: whether a command/response has a data phase. -/
inductive CommandFlag where
  | NoData
  | HasDataPhase
deriving DecidableEq, Repr

/-- Rust `CommandFlag::try_from` (`derive_more::TryFrom` over the `u8` repr). -/
def CommandFlag.tryFrom : Nat → Option CommandFlag
  | 0 => some .NoData
  | 1 => some .HasDataPhase
  | _ => none

/-- Little-endian byte decomposition of a 32-bit value (`u32::to_le_bytes`). -/
def le4 (n : Nat) : List Nat :=
  [n % 256, n / 256 % 256, n / 65536 % 256, n / 16777216 % 256]

/-! ## `McuBoot::read_command` (mboot.rs)

The transport is abstracted by the script of results its `read_packet_raw` /
`read_packet_concrete::<DataPhasePacket>` calls would return: each entry is the
payload of one received frame, or the error of that read.  Per
`uart.rs::read_packet_raw` a zero-length frame surfaces as `.error .Aborted`.
Rust panics (out-of-bounds slicing) are modelled by an outer `Option`,
`none` standing for a panic or for a script too short to drive the loop to an
exit (the loop is still demanding frames). -/

/-- Modelled from the spec: the typed response assembled by
`CmdResponseTag::from_code` (`tags/command_response.rs`, which is declared in
`tags.rs` but absent from the sources) keeps the response code, the parameter
bytes following the status word, and the collected data-phase bytes when
present ("maps response payloads back into typed responses";
"ReadMemory/FuseRead → bytes stream collected during data phase"). -/
structure CmdResponseModel where
  flag : CommandFlag
  reserved : Nat
  status : StatusCode
  code : Nat
  paramBytes : List Nat
  dataPhase : Option (List Nat)
deriving DecidableEq, Repr

/-- The response-length validation of `read_command` (mboot.rs, line 890):
`params_slice.len() % 4 != 0 && params_slice.len() != 4 * data[3]`. -/
def responseLenCheckFails (psLen count : Nat) : Bool :=
  psLen % 4 != 0 && psLen != 4 * count

/-- One exit of the data-phase receive loop of `read_command`. -/
inductive DataPhaseExit where
  | done (buf : List Nat)
  | abort (buf : List Nat)
  | fail (e : CommunicationError)
deriving DecidableEq, Repr

/-- The `while data_phase.len() != length` receive loop of `read_command`
(mboot.rs, lines 925-937): keep reading DATA frames and appending their
payloads until the accumulated byte count equals the declared length (`done`);
an `Aborted` read breaks out of the loop (`abort`); any other read error
returns from `read_command` (`fail`).  The result also carries the unconsumed
rest of the script; `none` means the script was exhausted while the loop was
still demanding frames, i.e. the loop has not terminated after the whole
script. -/
def dataPhaseLoop (length : Nat) (acc : List Nat)
    (reads : List (Except CommunicationError (List Nat))) :
    Option (DataPhaseExit × List (Except CommunicationError (List Nat))) :=
  if acc.length = length then some (.done acc, reads)
  else
    match reads with
    | [] => none
    | .ok d :: rest => dataPhaseLoop length (acc ++ d) rest
    | .error .Aborted :: rest => some (.abort acc, rest)
    | .error e :: rest => some (.fail e, rest)

/-- Rust `McuBoot::read_command` (mboot.rs, lines 884-955).  `first` is the result of
the initial `read_packet_raw(CMD)`; `reads` scripts the subsequent reads (DATA
frames, then the final CMD frame for responses with a data phase). -/
def readCommandModel (mask : Bool)
    (first : Except CommunicationError (List Nat))
    (reads : List (Except CommunicationError (List Nat))) :
    Option (Except CommunicationError CmdResponseModel) :=
  match first with
  | .error e => some (.error e)
  | .ok data =>
    -- `&data[8..]` and `data[4..8]` panic on shorter input
    if data.length < 8 then none
    else
      let ps := data.drop 8
      if responseLenCheckFails ps.length (data.getD 3 0) then some (.error .InvalidData)
      else
        match CommandFlag.tryFrom (data.getD 1 0) with
        | none => some (.error .InvalidData)
        | some flag =>
          match parse_status (data.getD 4 0) (data.getD 5 0) (data.getD 6 0) (data.getD 7 0) with
          | .error e => some (.error e)
          | .ok status =>
            -- key-provisioning override: force a no-data interpretation
            if mask then
              some (.ok { flag, reserved := data.getD 2 0, status, code := data.getD 0 0,
                          paramBytes := ps, dataPhase := none })
            else
              match flag with
              | .NoData =>
                some (.ok { flag := .NoData, reserved := data.getD 2 0, status,
                            code := data.getD 0 0, paramBytes := ps, dataPhase := none })
              | .HasDataPhase =>
                -- `params_slice[0..4]` panics on shorter input
                if ps.length < 4 then none
                else
                  let len := leWord4 (ps.getD 0 0) (ps.getD 1 0) (ps.getD 2 0) (ps.getD 3 0)
                  match dataPhaseLoop len [] reads with
                  | none => none
                  | some (.fail e, _) => some (.error e)
                  | some (.done buf, rest) | some (.abort buf, rest) =>
                    match rest with
                    | [] => none
                    | .error e :: _ => some (.error e)
                    | .ok fin :: _ =>
                      -- `final_response[4..8]` panics on shorter input
                      if fin.length < 8 then none
                      else
                        match parse_status (fin.getD 4 0) (fin.getD 5 0) (fin.getD 6 0) (fin.getD 7 0) with
                        | .error e => some (.error e)
                        | .ok finalStatus =>
                          some (.ok { flag := .NoData, reserved := data.getD 2 0,
                                      status := finalStatus, code := data.getD 0 0,
                                      paramBytes := ps, dataPhase := some buf })

/-! ## Ping handshake (`protocols/uart.rs::ping`, `packets/ping.rs::PingResponse::parse`) -/

/-- Rust `PingResponse`: bootloader version and options from the ping handshake. -/
structure PingResponse where
  version : Nat
  options : Nat
deriving DecidableEq, Repr

/-- Rust `PingResponse::parse`: version is the big-endian word in `bytes[2..6]`,
options the little-endian half-word in `bytes[6..8]`.  The error branch mirrors
the `.or(Err(InvalidData))` of the source and is unreachable from `uartPing`,
which always passes a 10-byte buffer. -/
def PingResponse.parse (bytes : List Nat) : Except CommunicationError PingResponse :=
  if bytes.length < 8 then .error .InvalidData
  else
    .ok { version := 16777216 * (bytes.getD 2 0) + 65536 * (bytes.getD 3 0)
                       + 256 * (bytes.getD 4 0) + bytes.getD 5 0,
          options := bytes.getD 6 0 + 256 * (bytes.getD 7 0) }

/-- The dummy-byte search loop of `UARTProtocol::ping` (uart.rs, lines 140-155):
read single bytes until `0x5A` is found, giving up with `InvalidHeader` after
`MAX_PING_RESPONSE_DUMMY_BYTES = 50` reads; an exhausted input stream is a
failed `read_exact`, surfaced as `IOError`.  Returns the unconsumed input. -/
def pingSearchStart (i : Nat) (input : List Nat) : Except CommunicationError (List Nat) :=
  match input with
  | [] => .error .IOError
  | b :: rest =>
    if b = 0x5A then .ok rest
    else if i = 49 then .error .InvalidHeader
    else pingSearchStart (i + 1) rest

/-- Rust `UARTProtocol::ping` (uart.rs, lines 131-185) over the stream of bytes the
device answers with: search for the start byte, require the `PINGR` type byte,
read 8 response bytes, check the CRC-16/XMODEM of the first 8 bytes of
`5A ‖ A7 ‖ response` against the little-endian CRC in the last two response
bytes, then parse. -/
def uartPing (input : List Nat) : Except CommunicationError PingResponse :=
  match pingSearchStart 0 input with
  | .error e => .error e
  | .ok rest =>
    match rest with
    | [] => .error .IOError
    | frameType :: rest2 =>
      if frameType ≠ 0xA7 then .error .InvalidHeader
      else if rest2.length < 8 then .error .IOError
      else
        let responseData := rest2.take 8
        let buf := [0x5A, 0xA7] ++ responseData
        let crc := buf.getD 8 0 + 256 * (buf.getD 9 0)
        if crc16 (buf.take 8) ≠ crc then .error .InvalidCrc
        else PingResponse.parse buf

/-! ## `McuBoot::flash_program_once` (mboot.rs, lines 636-659) -/

/-- Rust `flash_program_once` with the two device exchanges abstracted by their
results: `respStatus` is the parsed status of the response to the program command
and `readBack` the result of the verification `flash_read_once`.  On a
successful program with `verify`, the read-back word ANDed with `data` must
reproduce `data`, else the engine substitutes the synthetic
`OtpVerifyFail`. -/
def flashProgramOnce (respStatus : StatusCode)
    (readBack : Except CommunicationError Nat)
    (verify : Bool) (data : Nat) : Except CommunicationError StatusCode :=
  if verify && respStatus.isSuccess then
    match readBack with
    | .ok readValue =>
      if readValue &&& data = data then .ok respStatus else .ok .OtpVerifyFail
    | .error e => .error e
  else .ok respStatus

/-! ## Command tag discriminants (`tags/command.rs::CommandTag`, `strum::EnumDiscriminants`) -/

/-- The closed command-code set, in the declaration order of `tags/command.rs`
(which is the iteration order of `strum::EnumIter`). -/
inductive CommandTagDiscriminants where
  | NoCommand
  | FlashEraseAll
  | FlashEraseRegion
  | ReadMemory
  | WriteMemory
  | FillMemory
  | FlashSecurityDisable
  | GetProperty
  | ReceiveSBFile
  | Execute
  | Call
  | Reset
  | SetProperty
  | FlashEraseAllUnsecure
  | FlashProgramOnce
  | FlashReadOnce
  | FlashReadResource
  | ConfigureMemory
  | ReliableUpdate
  | GenerateKeyBlob
  | FuseProgram
  | KeyProvisioning
  | TrustProvisioning
  | FuseRead
  | UpdateLifeCycle
  | EleMessage
  | EL2GO
  | ConfigureI2C
  | ConfigureSPI
  | ConfigureCAN
deriving DecidableEq, Repr

/-- Numeric command codes (the `#[repr(u8)]` discriminants of `CommandTag`). -/
def CommandTagDiscriminants.toU8 : CommandTagDiscriminants → Nat
  | .NoCommand => 0x00
  | .FlashEraseAll => 0x01
  | .FlashEraseRegion => 0x02
  | .ReadMemory => 0x03
  | .WriteMemory => 0x04
  | .FillMemory => 0x05
  | .FlashSecurityDisable => 0x06
  | .GetProperty => 0x07
  | .ReceiveSBFile => 0x08
  | .Execute => 0x09
  | .Call => 0x0A
  | .Reset => 0x0B
  | .SetProperty => 0x0C
  | .FlashEraseAllUnsecure => 0x0D
  | .FlashProgramOnce => 0x0E
  | .FlashReadOnce => 0x0F
  | .FlashReadResource => 0x10
  | .ConfigureMemory => 0x11
  | .ReliableUpdate => 0x12
  | .GenerateKeyBlob => 0x13
  | .FuseProgram => 0x14
  | .KeyProvisioning => 0x15
  | .TrustProvisioning => 0x16
  | .FuseRead => 0x17
  | .UpdateLifeCycle => 0x18
  | .EleMessage => 0x19
  | .EL2GO => 0x20
  | .ConfigureI2C => 0xC1
  | .ConfigureSPI => 0xC2
  | .ConfigureCAN => 0xC3

/-- Rust `CommandTagDiscriminants::iter()`: all variants in declaration order. -/
def allCommandTags : List CommandTagDiscriminants :=
  [ .NoCommand, .FlashEraseAll, .FlashEraseRegion, .ReadMemory, .WriteMemory,
    .FillMemory, .FlashSecurityDisable, .GetProperty, .ReceiveSBFile, .Execute,
    .Call, .Reset, .SetProperty, .FlashEraseAllUnsecure, .FlashProgramOnce,
    .FlashReadOnce, .FlashReadResource, .ConfigureMemory, .ReliableUpdate,
    .GenerateKeyBlob, .FuseProgram, .KeyProvisioning, .TrustProvisioning,
    .FuseRead, .UpdateLifeCycle, .EleMessage, .EL2GO, .ConfigureI2C,
    .ConfigureSPI, .ConfigureCAN ]

/-- The `AvailableCommands` bitmask decoder of `PropertyTag::from_code`
(`tags/property.rs`, lines 227-237): keep every command tag whose code is in
`(0, 0xA0)` and whose bit `code - 1` is set in the word. -/
def availableCommandsDecode (w : Nat) : List CommandTagDiscriminants :=
  allCommandTags.filter fun tag =>
    let tagValue := tag.toU8
    (0 < tagValue && tagValue < 0xA0) && (w &&& (1 <<< (tagValue - 1)) != 0)

/-! ## Periphery tags (`tags/property.rs::PeripheryTag`) -/

/-- Peripheral interface bits, in declaration order. -/
inductive PeripheryTag where
  | Uart
  | I2CSlave
  | SPISlave
  | Can
  | UsbHid
  | UsbCdc
  | UsbDfu
  | Lin
deriving DecidableEq, Repr

/-- The `#[repr(u8)]` values of `PeripheryTag`. -/
def PeripheryTag.toU8 : PeripheryTag → Nat
  | .Uart => 0x01
  | .I2CSlave => 0x02
  | .SPISlave => 0x04
  | .Can => 0x08
  | .UsbHid => 0x10
  | .UsbCdc => 0x20
  | .UsbDfu => 0x40
  | .Lin => 0x80

/-- Rust `PeripheryTag::iter()`: all variants in declaration order. -/
def allPeripheryTags : List PeripheryTag :=
  [ .Uart, .I2CSlave, .SPISlave, .Can, .UsbHid, .UsbCdc, .UsbDfu, .Lin ]

/-! ## Property payload types (`tags/property.rs`, `memory.rs`) -/

/-- Rust `property.rs::Version` (the character mark is kept as its byte value;
`char::from_u32` cannot fail on a byte). -/
structure Version where
  mark : Nat
  major : Nat
  minor : Nat
  fixation : Nat
deriving DecidableEq, Repr

/-- Rust `Version::parse`: big-endian bytes of the 32-bit word. -/
def Version.parse (num : Nat) : Version :=
  { mark := num / 16777216 % 256, major := num / 65536 % 256,
    minor := num / 256 % 256, fixation := num % 256 }

/-- Rust `memory.rs::ReservedRegions::parse`: `(start, end)` pairs; the
`assert!(data.len() % 2 == 0)` panic is modelled by `none`. -/
def reservedRegionsParse (data : List Nat) : Option (List (Nat × Nat)) :=
  if data.length % 2 = 0 then
    some ((chunksList 2 data).map fun region => (region.getD 0 0, region.getD 1 0))
  else none

/-- Rust `memory.rs::ExternalMemoryAttributes`. -/
structure ExternalMemoryAttributes where
  start_address : Option Nat
  total_size : Option Nat
  page_size : Option Nat
  sector_size : Option Nat
  block_size : Option Nat
deriving DecidableEq, Repr

/-- Rust `ExternalMemoryAttributes::parse`: `data[0]` is the flag word
(`ext_mem_prop_tags`), each following word is present iff its flag bit is set;
out-of-bounds indexing (a Rust panic) is modelled by `none`. -/
def externalMemoryAttributesParse (data : List Nat) : Option ExternalMemoryAttributes := do
  let value ← data.get? 0
  let start_address ← if value &&& 0x00000001 ≠ 0 then (data.get? 1).map some else pure none
  let total_size ← if value &&& 0x00000002 ≠ 0 then (data.get? 2).map some else pure none
  let page_size ← if value &&& 0x00000004 ≠ 0 then (data.get? 3).map some else pure none
  let sector_size ← if value &&& 0x00000008 ≠ 0 then (data.get? 4).map some else pure none
  let block_size ← if value &&& 0x00000010 ≠ 0 then (data.get? 5).map some else pure none
  pure { start_address, total_size, page_size, sector_size, block_size }

/-- Rust `property.rs::IrqNotifierPin`. -/
structure IrqNotifierPin where
  pin : Nat
  port : Nat
  enabled : Bool
deriving DecidableEq, Repr

/-- Rust `IrqNotifierPin::parse`. -/
def IrqNotifierPin.parse (value : Nat) : IrqNotifierPin :=
  { pin := value &&& 0xFF, port := (value >>> 8) &&& 0xFF,
    enabled := 0 < value &&& (1 <<< 31) }

/-- Rust `property.rs::PfrKeystoreUpdateOpt`. -/
inductive PfrKeystoreUpdateOpt where
  | KeyProvisioning
  | WriteMemory
deriving DecidableEq, Repr

/-- Rust `PfrKeystoreUpdateOpt::parse`: `1` is `WriteMemory`, everything else
defaults to `KeyProvisioning`. -/
def PfrKeystoreUpdateOpt.parse (value : Nat) : PfrKeystoreUpdateOpt :=
  if value = 1 then .WriteMemory else .KeyProvisioning

/-- Rust `property.rs::FlashReadMargin`. -/
inductive FlashReadMargin where
  | Normal
  | User
  | Factory
deriving DecidableEq, Repr

/-- Rust `FlashReadMargin::parse`: `1` is `User`, `2` is `Factory`, everything else
defaults to `Normal`. -/
def FlashReadMargin.parse (value : Nat) : FlashReadMargin :=
  if value = 1 then .User else if value = 2 then .Factory else .Normal

/-- Rust `property.rs::SHEFlashPartition`. -/
structure SHEFlashPartition where
  max_keys : Nat
  flash_size : Nat
deriving DecidableEq, Repr

/-- Rust `SHEFlashPartition::parse`. -/
def SHEFlashPartition.parse (value : Nat) : SHEFlashPartition :=
  { max_keys := value &&& 0x03, flash_size := (value >>> 8) &&& 0x03 }

/-- Rust `property.rs::SHEBootMode`. -/
structure SHEBootMode where
  size : Nat
  mode : Nat
deriving DecidableEq, Repr

/-- Rust `SHEBootMode::parse`. -/
def SHEBootMode.parse (value : Nat) : SHEBootMode :=
  { size := value &&& 0x3FFFFFFF, mode := (value >>> 30) &&& 0x03 }

/-! ## Property tags (`tags/property.rs::PropertyTag`) -/

/-- The property-tag discriminants (`strum::EnumDiscriminants` of
`PropertyTag`), codes `0x01`-`0x26`. -/
inductive PropertyTagDiscriminants where
  | CurrentVersion
  | AvailablePeripherals
  | FlashStartAddress
  | FlashSize
  | FlashSectorSize
  | FlashBlockCount
  | AvailableCommands
  | CRCCheckStatus
  | LastError
  | VerifyWrites
  | MaxPacketSize
  | ReservedRegions
  | ValidateRegions
  | RAMStartAddress
  | RAMSize
  | SystemDeviceId
  | FlashSecurityState
  | UniqueDeviceId
  | FlashFacSupport
  | FlashAccessSegmentSize
  | FlashAccessSegmentCount
  | FlashReadMargin
  | QSPIInitStatus
  | TargetVersion
  | ExternalMemoryAttributes
  | ReliableUpdateStatus
  | FlashPageSize
  | IrqNotifierPin
  | PFRKeystoreUpdateOpt
  | ByteWriteTimeoutMs
  | FuseLockedStatus
  | BootStatusRegister
  | FirmwareVersion
  | FuseProgramVoltage
  | VerifyErase
  | SHEFlashPartition
  | SHEBootMode
  | LifeCycleState
deriving DecidableEq, Repr

/-- Parsed property values (`tags/property.rs::PropertyTag`).
`FlashSecurityState` and `LifeCycleState` wrap the boolean of their
one-field tuple structs; `DeviceId` is its byte list. -/
inductive PropertyTag where
  | CurrentVersion (v : Version)
  | AvailablePeripherals (l : List PeripheryTag)
  | FlashStartAddress (n : Nat)
  | FlashSize (n : Nat)
  | FlashSectorSize (n : Nat)
  | FlashBlockCount (n : Nat)
  | AvailableCommands (l : List CommandTagDiscriminants)
  | CRCCheckStatus (s : StatusCode)
  | LastError (n : Nat)
  | VerifyWrites (b : Bool)
  | MaxPacketSize (n : Nat)
  | ReservedRegions (regions : List (Nat × Nat))
  | ValidateRegions (b : Bool)
  | RAMStartAddress (n : Nat)
  | RAMSize (n : Nat)
  | SystemDeviceId (n : Nat)
  | FlashSecurityState (b : Bool)
  | UniqueDeviceId (bytes : List Nat)
  | FlashFacSupport (b : Bool)
  | FlashAccessSegmentSize (n : Nat)
  | FlashAccessSegmentCount (n : Nat)
  | FlashReadMargin (m : FlashReadMargin)
  | QSPIInitStatus (s : StatusCode)
  | TargetVersion (v : Version)
  | ExternalMemoryAttributes (a : ExternalMemoryAttributes)
  | ReliableUpdateStatus (s : StatusCode)
  | FlashPageSize (n : Nat)
  | IrqNotifierPin (p : IrqNotifierPin)
  | PFRKeystoreUpdateOpt (o : PfrKeystoreUpdateOpt)
  | ByteWriteTimeoutMs (n : Nat)
  | FuseLockedStatus
  | BootStatusRegister (n : Nat)
  | FirmwareVersion (n : Nat)
  | FuseProgramVoltage (b : Bool)
  | VerifyErase (b : Bool)
  | SHEFlashPartition (p : SHEFlashPartition)
  | SHEBootMode (m : SHEBootMode)
  | LifeCycleState (b : Bool)
deriving DecidableEq, Repr

/-- Rust `PropertyTag::from_code` (`tags/property.rs`, lines 210-278).  Panics -
out-of-bounds `data[i]`, the `expect` calls on `StatusCode::try_from` for
`CRCCheckStatus` / `QSPIInitStatus` / `ReliableUpdateStatus`, the
`unimplemented!` arms for `FuseLockedStatus` / `LastError`, and the length
assertion inside `ReservedRegions::parse` - are modelled by `none`. -/
def PropertyTag.fromCode (tag : PropertyTagDiscriminants) (data : List Nat) :
    Option PropertyTag :=
  match tag with
  | .CurrentVersion => do pure (.CurrentVersion (Version.parse (← data.get? 0)))
  | .TargetVersion => do pure (.TargetVersion (Version.parse (← data.get? 0)))
  | .UniqueDeviceId => some (.UniqueDeviceId ((data.map le4).flatten))
  | .AvailablePeripherals => do
    let num := (← data.get? 0) % 256
    pure (.AvailablePeripherals (allPeripheryTags.filter fun per => per.toU8 &&& num != 0))
  | .FlashStartAddress => do pure (.FlashStartAddress (← data.get? 0))
  | .FlashSize => do pure (.FlashSize (← data.get? 0))
  | .FlashSectorSize => do pure (.FlashSectorSize (← data.get? 0))
  | .AvailableCommands => do pure (.AvailableCommands (availableCommandsDecode (← data.get? 0)))
  | .CRCCheckStatus => do pure (.CRCCheckStatus (← StatusCode.tryFrom (← data.get? 0)))
  | .VerifyWrites => do pure (.VerifyWrites ((← data.get? 0) ≠ 0))
  | .MaxPacketSize => do pure (.MaxPacketSize (← data.get? 0))
  | .ReservedRegions =>
    if data.length < 2 then none
    else do pure (.ReservedRegions (← reservedRegionsParse (data.drop 2)))
  | .RAMStartAddress => do pure (.RAMStartAddress (← data.get? 0))
  | .RAMSize => do pure (.RAMSize (← data.get? 0))
  | .SystemDeviceId => do pure (.SystemDeviceId (← data.get? 0))
  | .FlashSecurityState => do
    let v ← data.get? 0
    pure (.FlashSecurityState (v = 0x0 ∨ v = 0x5AA55AA5))
  | .ExternalMemoryAttributes => do
    pure (.ExternalMemoryAttributes (← externalMemoryAttributesParse data))
  | .FlashPageSize => do pure (.FlashPageSize (← data.get? 0))
  | .IrqNotifierPin => do pure (.IrqNotifierPin (IrqNotifierPin.parse (← data.get? 0)))
  | .PFRKeystoreUpdateOpt => do pure (.PFRKeystoreUpdateOpt (PfrKeystoreUpdateOpt.parse (← data.get? 0)))
  | .ByteWriteTimeoutMs => do pure (.ByteWriteTimeoutMs (← data.get? 0))
  | .BootStatusRegister => do pure (.BootStatusRegister (← data.get? 0))
  | .FirmwareVersion => do pure (.FirmwareVersion (← data.get? 0))
  | .FuseProgramVoltage => do pure (.FuseProgramVoltage ((← data.get? 0) ≠ 0))
  | .VerifyErase => do pure (.VerifyErase ((← data.get? 0) ≠ 0))
  | .SHEFlashPartition => do pure (.SHEFlashPartition (SHEFlashPartition.parse (← data.get? 0)))
  | .SHEBootMode => do pure (.SHEBootMode (SHEBootMode.parse (← data.get? 0)))
  | .LifeCycleState => do
    let v ← data.get? 0
    pure (.LifeCycleState (v = 0x0 ∨ v = 0x5AA55AA5))
  | .FlashBlockCount => do pure (.FlashBlockCount (← data.get? 0))
  | .FlashAccessSegmentCount => do pure (.FlashAccessSegmentCount (← data.get? 0))
  | .ValidateRegions => do pure (.ValidateRegions ((← data.get? 0) ≠ 0))
  | .FlashFacSupport => do pure (.FlashFacSupport ((← data.get? 0) ≠ 0))
  | .FlashAccessSegmentSize => do pure (.FlashAccessSegmentSize (← data.get? 0))
  | .FlashReadMargin => do pure (.FlashReadMargin (FlashReadMargin.parse (← data.get? 0)))
  | .QSPIInitStatus => do pure (.QSPIInitStatus (← StatusCode.tryFrom (← data.get? 0)))
  | .ReliableUpdateStatus => do pure (.ReliableUpdateStatus (← StatusCode.tryFrom (← data.get? 0)))
  | .FuseLockedStatus => none
  | .LastError => none

/-! ## Lemmas about `chunksList` (the data-phase chunking of `send_command`) -/

theorem chunksList_flatten {α : Type} (m : Nat) (hm : 0 < m) (l : List α) :
    (chunksList m l).flatten = l := by
  induction l using chunksList.induct m with
  | case1 x h => omega
  | case2 h => simp [chunksList]
  | case3 h a t ih =>
    rw [chunksList]
    simp only [h, dite_false]
    rw [List.flatten_cons, ih, List.take_append_drop]

theorem chunksList_length {α : Type} (m : Nat) (hm : 0 < m) (l : List α) :
    (chunksList m l).length = (l.length + m - 1) / m := by
  induction l using chunksList.induct m with
  | case1 x h => omega
  | case2 h =>
    simp [chunksList, Nat.div_eq_of_lt (show m - 1 < m by omega)]
  | case3 h a t ih =>
    rw [chunksList]
    simp only [h, dite_false, List.length_cons, ih, List.length_drop]
    rcases le_or_lt (t.length + 1) m with hle | hlt
    · have e1 : t.length + 1 - m + m - 1 = m - 1 := by omega
      have e2 : t.length + 1 + m - 1 = t.length + m := by omega
      rw [e1, e2, Nat.add_div_right _ hm, Nat.div_eq_of_lt (by omega),
        Nat.div_eq_of_lt (by omega)]
    · have heq : t.length + 1 - m + m - 1 + m = t.length + 1 + m - 1 := by omega
      rw [← Nat.add_div_right (t.length + 1 - m + m - 1) hm, heq]

theorem chunksList_ne_nil {α : Type} (m : Nat) (hm : 0 < m) (a : α) (t : List α) :
    chunksList m (a :: t) ≠ [] := by
  rw [chunksList]
  simp [Nat.pos_iff_ne_zero.mp hm]

theorem chunksList_dropLast_length {α : Type} (m : Nat) (hm : 0 < m) (l : List α) :
    ∀ c ∈ (chunksList m l).dropLast, c.length = m := by
  induction l using chunksList.induct m with
  | case1 x h => omega
  | case2 h => simp [chunksList]
  | case3 h a t ih =>
    rw [chunksList]
    simp only [h, dite_false]
    intro c hc
    rcases hd : List.drop m (a :: t) with _ | ⟨b, u⟩
    · rw [hd] at hc
      simp [chunksList] at hc
    · rw [hd] at hc ih
      rw [List.dropLast_cons_of_ne_nil (hd ▸ chunksList_ne_nil m hm b u)] at hc
      rcases List.mem_cons.mp hc with hc | hc
      · subst hc
        have hlen : m < (a :: t).length := by
          by_contra hcon
          have hnil : List.drop m (a :: t) = [] := List.drop_eq_nil_of_le (by omega)
          rw [hd] at hnil
          exact absurd hnil (by simp)
        simp only [List.length_cons] at hlen
        have hle2 : m ≤ (a :: t).length := by
          simp only [List.length_cons]
          omega
        simp [List.length_take, Nat.min_eq_left hle2]
        omega
      · exact ih c hc

/-! ## The DATA frames of the outbound data phase of `send_command` -/

/-- The DATA frames emitted by the data-phase loop of `send_command`
(mboot.rs, lines 840-852): `data.chunks(max_packet_size)`, each chunk written
through `DataPhasePacket::construct`, i.e. wrapped by
`construct_header(0xA5, chunk)`. -/
def sendDataFrames (maxPacketSize : Nat) (data : List Nat) : List (List Nat) :=
  (chunksList maxPacketSize data).map fun chunk => constructHeader 0xA5 chunk

/-- C3: with device-reported `maxPacketSize = m > 0` and input of length `len`,
`send_command` emits exactly `⌈len/m⌉` DATA frames, every frame except
possibly the last carries exactly `m` payload bytes, and the concatenation of
all DATA-frame payloads (the bytes after the 6 frame-header bytes) is exactly
the input. -/
theorem C3_write_memory_chunking (m : Nat) (data : List Nat) (hm : 0 < m) :
    (sendDataFrames m data).length = (data.length + m - 1) / m ∧
    (∀ f ∈ (sendDataFrames m data).dropLast, (f.drop 6).length = m) ∧
    ((sendDataFrames m data).map fun f => f.drop 6).flatten = data := by
  refine ⟨?_, ?_, ?_⟩
  · rw [sendDataFrames, List.length_map, chunksList_length m hm]
  · intro f hf
    rw [sendDataFrames, ← List.map_dropLast] at hf
    rcases List.mem_map.mp hf with ⟨c, hc, rfl⟩
    rw [constructHeader_drop6]
    exact chunksList_dropLast_length m hm data c hc
  · rw [sendDataFrames, List.map_map]
    have : ((fun f => List.drop 6 f) ∘ fun chunk => constructHeader 0xA5 chunk) = id := by
      funext chunk
      exact constructHeader_drop6 0xA5 chunk
    rw [this, List.map_id]
    exact chunksList_flatten m hm data

/-- Witness for `C3_write_memory_chunking` at `m = 2`, `data = [9, 8, 7]`. -/
theorem C3_write_memory_chunking_witness :
    0 < 2 ∧
    ((sendDataFrames 2 [9, 8, 7]).length = (3 + 2 - 1) / 2 ∧
     (∀ f ∈ (sendDataFrames 2 [9, 8, 7]).dropLast, (f.drop 6).length = 2) ∧
     ((sendDataFrames 2 [9, 8, 7]).map fun f => f.drop 6).flatten = [9, 8, 7]) :=
  ⟨by decide, C3_write_memory_chunking 2 [9, 8, 7] (by decide)⟩

/-! ## Lemmas about the data-phase receive loop -/

/-- If nonempty frames totalling the missing byte count arrive, the loop exits
normally with everything appended, leaving the rest of the script unread. -/
theorem dataPhaseLoop_done (L : Nat) (frames : List (List Nat)) :
    ∀ (acc : List Nat) (rest : List (Except CommunicationError (List Nat))),
      (∀ f ∈ frames, f ≠ []) → acc.length + frames.flatten.length = L →
      dataPhaseLoop L acc (frames.map .ok ++ rest) =
        some (.done (acc ++ frames.flatten), rest) := by
  induction frames with
  | nil =>
    intro acc rest _ hsum
    simp only [List.flatten_nil, List.length_nil, Nat.add_zero] at hsum
    rw [dataPhaseLoop.eq_def]
    simp [hsum]
  | cons f fs ih =>
    intro acc rest hne hsum
    have hf : f ≠ [] := hne f (List.mem_cons_self f fs)
    have hflen : 0 < f.length := List.length_pos.mpr hf
    rw [dataPhaseLoop.eq_def]
    simp only [List.flatten_cons, List.length_append] at hsum ⊢
    rw [if_neg (by omega)]
    simp only [List.map_cons, List.cons_append]
    rw [ih (acc ++ f) rest (fun g hg => hne g (List.mem_cons_of_mem f hg))
      (by simp only [List.length_append]; omega)]
    simp

/-- If nonempty frames totalling fewer bytes than the missing count arrive and
then a zero-length frame (an `Aborted` read), the loop breaks out with the
partial buffer, leaving the rest of the script unread. -/
theorem dataPhaseLoop_abort (L : Nat) (frames : List (List Nat)) :
    ∀ (acc : List Nat) (rest : List (Except CommunicationError (List Nat))),
      (∀ f ∈ frames, f ≠ []) → acc.length + frames.flatten.length < L →
      dataPhaseLoop L acc (frames.map .ok ++ (.error .Aborted :: rest)) =
        some (.abort (acc ++ frames.flatten), rest) := by
  induction frames with
  | nil =>
    intro acc rest _ hsum
    simp only [List.flatten_nil, List.length_nil, Nat.add_zero] at hsum
    rw [dataPhaseLoop.eq_def]
    simp [Nat.ne_of_lt hsum]
  | cons f fs ih =>
    intro acc rest hne hsum
    rw [dataPhaseLoop.eq_def]
    simp only [List.flatten_cons, List.length_append] at hsum ⊢
    rw [if_neg (by omega)]
    simp only [List.map_cons, List.cons_append]
    rw [ih (acc ++ f) rest (fun g hg => hne g (List.mem_cons_of_mem f hg))
      (by simp only [List.length_append]; omega)]
    simp

/-- If an all-`ok` frame script never makes the accumulated byte count hit the
declared length exactly, the loop consumes the whole script and is still
demanding frames (`none`): it cannot terminate. -/
theorem dataPhaseLoop_none (L : Nat) (frames : List (List Nat)) :
    ∀ acc : List Nat,
      (∀ k, k ≤ frames.length → acc.length + ((frames.take k).flatten).length ≠ L) →
      dataPhaseLoop L acc (frames.map .ok) = none := by
  induction frames with
  | nil =>
    intro acc h
    have h0 := h 0 (by omega)
    simp only [List.take_nil, List.flatten_nil, List.length_nil, Nat.add_zero] at h0
    rw [dataPhaseLoop.eq_def]
    simp [h0]
  | cons f fs ih =>
    intro acc h
    have h0 := h 0 (by omega)
    simp only [List.take_zero, List.flatten_nil, List.length_nil, Nat.add_zero] at h0
    rw [dataPhaseLoop.eq_def]
    rw [if_neg h0]
    simp only [List.map_cons]
    refine ih (acc ++ f) fun k hk => ?_
    have hk1 := h (k + 1) (by simpa using Nat.succ_le_succ hk)
    simp only [List.take_succ_cons, List.flatten_cons, List.length_append] at hk1 ⊢
    omega

/-- A `done` exit of the loop carries a buffer of exactly the declared length. -/
theorem dataPhaseLoop_done_length (L : Nat) :
    ∀ (reads : List (Except CommunicationError (List Nat))) (acc buf : List Nat)
      (rest : List (Except CommunicationError (List Nat))),
      dataPhaseLoop L acc reads = some (.done buf, rest) → buf.length = L := by
  intro reads
  induction reads with
  | nil =>
    intro acc buf rest h
    rw [dataPhaseLoop.eq_def] at h
    by_cases hacc : acc.length = L
    · simp only [if_pos hacc, Option.some.injEq, Prod.mk.injEq, DataPhaseExit.done.injEq] at h
      exact h.1 ▸ hacc
    · simp [if_neg hacc] at h
  | cons r rs ih =>
    intro acc buf rest h
    rw [dataPhaseLoop.eq_def] at h
    by_cases hacc : acc.length = L
    · simp only [if_pos hacc, Option.some.injEq, Prod.mk.injEq, DataPhaseExit.done.injEq] at h
      exact h.1 ▸ hacc
    · rw [if_neg hacc] at h
      rcases r with e | d
      · cases e <;> simp_all
      · exact ih (acc ++ d) buf rest h

/-- C9: the receive loop of `read_command` exits normally (`done`) only when
the accumulated byte count equals the declared length `L` exactly; and for any
finite all-`ok` frame sequence whose cumulative byte count never hits `L` (in
particular one that jumps from below `L` to strictly above it), the loop
consumes every frame and is still demanding more — it never terminates. -/
theorem C9_read_loop_exits_only_at_exact_length :
    (∀ (L : Nat) (reads : List (Except CommunicationError (List Nat)))
       (acc buf : List Nat) (rest : List (Except CommunicationError (List Nat))),
       dataPhaseLoop L acc reads = some (.done buf, rest) → buf.length = L) ∧
    (∀ (L : Nat) (frames : List (List Nat)),
       (∀ k, k ≤ frames.length → ((frames.take k).flatten).length ≠ L) →
       dataPhaseLoop L [] (frames.map .ok) = none) := by
  constructor
  · exact fun L => dataPhaseLoop_done_length L
  · intro L frames h
    refine dataPhaseLoop_none L frames [] fun k hk => ?_
    simpa using h k hk

/-- Witness for `C9_read_loop_exits_only_at_exact_length`: the loop with
`L = 2` exits on `[5, 6]` with a buffer of length 2, and with `L = 2` and a
single 3-byte frame (cumulative count jumping 0 → 3 over `L`) it never
terminates. -/
theorem C9_read_loop_exits_only_at_exact_length_witness :
    ([5, 6] : List Nat).length = 2 ∧
    dataPhaseLoop 2 [] [.ok [1, 2, 3]] = none :=
  ⟨C9_read_loop_exits_only_at_exact_length.1 2 [.ok [5, 6]] [] [5, 6] [] (by rfl),
   C9_read_loop_exits_only_at_exact_length.2 2 [[1, 2, 3]] (by decide)⟩

/-- C2 counterexample: a `ReadMemory`-style exchange declaring `L = 4` bytes in
which the device sends one 2-byte DATA frame and then a zero-length frame (an
`Aborted` read): `read_command` swallows the abort, reads the final status
frame, and returns `Ok` with the partial 2-byte buffer — the result of the operation
is not the error `Aborted` as the claim states. -/
theorem C2_zero_length_frame_not_an_error :
    readCommandModel false (.ok [3, 1, 0, 2, 0, 0, 0, 0, 4, 0, 0, 0])
        [.ok [1, 2], .error .Aborted, .ok [0, 0, 0, 2, 0, 0, 0, 0]] =
      some (.ok ⟨.NoData, 0, .Success, 3, [4, 0, 0, 0], some [1, 2]⟩) := by
  rfl

/-- C2 as amended: for an inbound data phase declaring `L` bytes (little-endian
word `b0 b1 b2 b3`), if the device sends nonempty DATA frames totalling exactly
`L` bytes followed by the final status frame, `read_command` returns the
complete buffer (length `L`); if the frames total less than `L` and a
zero-length frame follows, the `Aborted` error of that read is swallowed
(`break`), the final status frame is still read, and `read_command` returns
`Ok` with the partial buffer — the bytes received so far — not an error. -/
theorem C2_read_data_phase (b0 b1 b2 b3 : Nat) (frames : List (List Nat))
    (hne : ∀ f ∈ frames, f ≠ []) :
    (frames.flatten.length = leWord4 b0 b1 b2 b3 →
      readCommandModel false (.ok [3, 1, 0, 2, 0, 0, 0, 0, b0, b1, b2, b3])
          (frames.map .ok ++ [.ok [0, 0, 0, 2, 0, 0, 0, 0]]) =
        some (.ok ⟨.NoData, 0, .Success, 3, [b0, b1, b2, b3], some frames.flatten⟩)) ∧
    (frames.flatten.length < leWord4 b0 b1 b2 b3 →
      readCommandModel false (.ok [3, 1, 0, 2, 0, 0, 0, 0, b0, b1, b2, b3])
          (frames.map .ok ++ (.error .Aborted :: [.ok [0, 0, 0, 2, 0, 0, 0, 0]])) =
        some (.ok ⟨.NoData, 0, .Success, 3, [b0, b1, b2, b3], some frames.flatten⟩)) := by
  have hst : parse_status 0 0 0 0 = Except.ok StatusCode.Success := rfl
  constructor
  · intro hsum
    have hloop := dataPhaseLoop_done (leWord4 b0 b1 b2 b3) frames []
      [.ok [0, 0, 0, 2, 0, 0, 0, 0]] hne (by simpa using hsum)
    simp only [List.nil_append] at hloop
    simp [readCommandModel, responseLenCheckFails, CommandFlag.tryFrom, hst, hloop]
  · intro hsum
    have hloop := dataPhaseLoop_abort (leWord4 b0 b1 b2 b3) frames []
      [.ok [0, 0, 0, 2, 0, 0, 0, 0]] hne (by simpa using hsum)
    simp only [List.nil_append] at hloop
    simp [readCommandModel, responseLenCheckFails, CommandFlag.tryFrom, hst, hloop]

/-- Witness for `C2_read_data_phase`: declared length 4, one exact 4-byte frame
for the first part, and for the second part a 2-byte frame followed by the
zero-length frame. -/
theorem C2_read_data_phase_witness :
    readCommandModel false (.ok [3, 1, 0, 2, 0, 0, 0, 0, 4, 0, 0, 0])
        [.ok [9, 9, 9, 9], .ok [0, 0, 0, 2, 0, 0, 0, 0]] =
      some (.ok ⟨.NoData, 0, .Success, 3, [4, 0, 0, 0], some [9, 9, 9, 9]⟩) :=
  (C2_read_data_phase 4 0 0 0 [[9, 9, 9, 9]] (by decide)).1 (by decide)

/-- C1 counterexample: a response whose parameter area after the status word is
8 bytes (a multiple of 4) while the declared `paramCount` byte `data[3]` is 1,
so `paramsBytes / 4 = 2 ≠ 1`.  The claim requires `InvalidData`; `read_command`
accepts the response, because the `&&` in its condition makes the
`paramCount` comparison unreachable (a length that is not a multiple of 4 can
never equal `4 * paramCount`). -/
theorem C1_param_count_mismatch_accepted :
    readCommandModel false (.ok [7, 0, 0, 1, 0, 0, 0, 0, 1, 2, 3, 4, 5, 6, 7, 8]) [] =
      some (.ok ⟨.NoData, 0, .Success, 7, [1, 2, 3, 4, 5, 6, 7, 8], none⟩) := by
  rfl

/-- C1 as amended: the response-length validation of `read_command` rejects
with `InvalidData` exactly the responses whose params byte-length (after the
status word) is not a multiple of 4; the comparison against the declared
`paramCount` byte, being conjoined with the modulo test by `&&`, never fires
on its own. -/
theorem C1_response_length_validation :
    (∀ psLen count : Nat, responseLenCheckFails psLen count = true ↔ psLen % 4 ≠ 0) ∧
    (∀ (mask : Bool) (data : List Nat) (reads : List (Except CommunicationError (List Nat))),
       8 ≤ data.length → (data.drop 8).length % 4 ≠ 0 →
       readCommandModel mask (.ok data) reads = some (.error .InvalidData)) := by
  constructor
  · intro psLen count
    simp only [responseLenCheckFails, Bool.and_eq_true, bne_iff_ne, ne_eq]
    constructor
    · exact fun h => h.1
    · intro h
      exact ⟨h, by omega⟩
  · intro mask data reads h8 hmod
    have hcheck : responseLenCheckFails (data.drop 8).length (data.getD 3 0) = true := by
      simp only [responseLenCheckFails, Bool.and_eq_true, bne_iff_ne, ne_eq]
      exact ⟨hmod, by omega⟩
    simp only [readCommandModel]
    rw [if_neg (by omega : ¬ data.length < 8), if_pos hcheck]

/-- Witness for `C1_response_length_validation` at a response with a 5-byte
params area. -/
theorem C1_response_length_validation_witness :
    readCommandModel false (.ok [7, 0, 0, 2, 0, 0, 0, 0, 1, 2, 3, 4, 5]) [] =
      some (.error .InvalidData) :=
  C1_response_length_validation.2 false [7, 0, 0, 2, 0, 0, 0, 0, 1, 2, 3, 4, 5] []
    (by decide) (by decide)

/-- C4 counterexample: merely unfavorable but well-formed responses on which
the engine panics instead of returning an error result (`none` models the Rust
panic): an undocumented status word (7) inside a `CRCCheckStatus` property
(`expect`), a `LastError` query (`unimplemented!`), and a `ReservedRegions`
word array of odd length (the `assert!` in `ReservedRegions::parse`). -/
theorem C4_unfavorable_responses_panic_counterexample :
    PropertyTag.fromCode .CRCCheckStatus [7] = none ∧
    PropertyTag.fromCode .LastError [0] = none ∧
    PropertyTag.fromCode .ReservedRegions [0, 0, 1, 2, 3] = none :=
  ⟨rfl, rfl, rfl⟩

/-- C4 as amended: on every such well-formed but unfavorable response the
engine does not return an error result — `PropertyTag::from_code` panics
(modelled by `none`): `expect` on an undocumented status word for
`CRCCheckStatus` / `QSPIInitStatus` / `ReliableUpdateStatus`, `unimplemented!`
for `FuseLockedStatus` and `LastError`, and the even-length `assert!` of
`ReservedRegions::parse` for an odd word array after the two skipped words. -/
theorem C4_unfavorable_responses_panic :
    (∀ (data : List Nat) (w : Nat), data.get? 0 = some w → StatusCode.tryFrom w = none →
       PropertyTag.fromCode .CRCCheckStatus data = none ∧
       PropertyTag.fromCode .QSPIInitStatus data = none ∧
       PropertyTag.fromCode .ReliableUpdateStatus data = none) ∧
    (∀ data : List Nat,
       PropertyTag.fromCode .FuseLockedStatus data = none ∧
       PropertyTag.fromCode .LastError data = none) ∧
    (∀ data : List Nat, 2 ≤ data.length → (data.length - 2) % 2 = 1 →
       PropertyTag.fromCode .ReservedRegions data = none) := by
  refine ⟨?_, ?_, ?_⟩
  · intro data w h0 hunknown
    simp only [List.get?_eq_getElem?] at h0
    refine ⟨?_, ?_, ?_⟩ <;> simp [PropertyTag.fromCode, h0, hunknown]
  · intro data
    exact ⟨rfl, rfl⟩
  · intro data h2 hodd
    have hdroplen : (data.drop 2).length % 2 = 1 := by
      simp only [List.length_drop]
      exact hodd
    simp [PropertyTag.fromCode, reservedRegionsParse, Nat.not_lt.mpr h2, hdroplen, hodd]

/-- Witness for `C4_unfavorable_responses_panic` at concrete unfavorable
responses. -/
theorem C4_unfavorable_responses_panic_witness :
    PropertyTag.fromCode .QSPIInitStatus [7] = none ∧
    PropertyTag.fromCode .FuseLockedStatus [] = none ∧
    PropertyTag.fromCode .ReservedRegions [5, 5, 1, 2, 3] = none :=
  ⟨(C4_unfavorable_responses_panic.1 [7] 7 rfl (by decide)).2.1,
   (C4_unfavorable_responses_panic.2.1 []).1,
   C4_unfavorable_responses_panic.2.2 [5, 5, 1, 2, 3] (by decide) (by decide)⟩

/-- C5 counterexample: the 14-byte frame-shaped sequence of the claim —
`5A A7 08 00 crc_lo crc_hi 00 00 00 03 01 50 00 00` with the CRC computed by
the frame rule of the codec over `5A A7 08 00 ‖ payload` (`0x71DC`) — is rejected:
the ping reader consumes only 10 bytes (`5A`, `A7`, 8 response bytes) and
finds a CRC mismatch, so parsing yields `InvalidCrc`, not a successful ping
response. -/
theorem C5_frame_shaped_ping_response_rejected :
    uartPing [0x5A, 0xA7, 0x08, 0x00, 0xDC, 0x71, 0x00, 0x00, 0x00, 0x03, 0x01, 0x50, 0x00, 0x00] =
      .error .InvalidCrc := by
  rfl

/-- C5 as amended: the ping response has no length field; the wire sequence is
the 10-byte `5A A7 00 03 01 50 00 00 crc_lo crc_hi` — start byte, `PINGR`,
big-endian version in bytes 2..6, little-endian options in bytes 6..8, and the
trailing CRC-16/XMODEM over the first 8 bytes (`0x40FB`).  It parses as
`{version = 0x00030150, options = 0x0000}`. -/
theorem C5_ping_handshake_parse :
    uartPing [0x5A, 0xA7, 0x00, 0x03, 0x01, 0x50, 0x00, 0x00, 0xFB, 0x40] =
      .ok ⟨0x00030150, 0x0000⟩ := by
  rfl

/-- C6: a verified `flash_program_once` whose program command succeeded
returns `Ok OtpVerifyFail` (numeric value 52009, synthesized by the engine in
this branch only) when the read-back word ANDed with `data` does not
reproduce `data`, and the original success status when it does. -/
theorem C6_flash_program_once_verify :
    StatusCode.OtpVerifyFail.toU32 = 52009 ∧
    (∀ (st : StatusCode) (readValue data : Nat), st.isSuccess = true →
      (readValue &&& data ≠ data →
        flashProgramOnce st (.ok readValue) true data = .ok .OtpVerifyFail) ∧
      (readValue &&& data = data →
        flashProgramOnce st (.ok readValue) true data = .ok st)) := by
  refine ⟨rfl, ?_⟩
  intro st r data hst
  constructor
  · intro hne
    simp [flashProgramOnce, hst, hne]
  · intro heq
    simp [flashProgramOnce, hst, heq]

/-- Witness for `C6_flash_program_once_verify`: programming `data = 1` with a
read-back of `0` fails verification, a read-back of `3` passes. -/
theorem C6_flash_program_once_verify_witness :
    flashProgramOnce .Success (.ok 0) true 1 = .ok .OtpVerifyFail ∧
    flashProgramOnce .Success (.ok 3) true 1 = .ok .Success :=
  ⟨(C6_flash_program_once_verify.2 .Success 0 1 (by decide)).1 (by decide),
   (C6_flash_program_once_verify.2 .Success 3 1 (by decide)).2 (by decide)⟩

/-- C7: for every word `w` and every command tag `c` of the closed set, `c`
appears in the decoded `AvailableCommands` set iff its code lies in
`[1, 0x9F]` and bit `code - 1` of `w` is set. -/
theorem C7_available_commands_bitmask (w : Nat) (c : CommandTagDiscriminants) :
    c ∈ availableCommandsDecode w ↔
      1 ≤ c.toU8 ∧ c.toU8 ≤ 0x9F ∧ w.testBit (c.toU8 - 1) = true := by
  have hmem : c ∈ allCommandTags := by cases c <;> decide
  rw [availableCommandsDecode, List.mem_filter]
  simp only [hmem, true_and, Bool.and_eq_true, decide_eq_true_eq, bne_iff_ne, ne_eq]
  have hbit : w &&& 1 <<< (c.toU8 - 1) = (w.testBit (c.toU8 - 1)).toNat * 2 ^ (c.toU8 - 1) := by
    rw [Nat.shiftLeft_eq, Nat.one_mul, Nat.and_two_pow]
  constructor
  · rintro ⟨⟨h1, h2⟩, h3⟩
    refine ⟨h1, by omega, ?_⟩
    rw [hbit] at h3
    rcases hb : w.testBit (c.toU8 - 1) with _ | _
    · rw [hb] at h3
      simp at h3
    · rfl
  · rintro ⟨h1, h2, h3⟩
    refine ⟨⟨h1, by omega⟩, ?_⟩
    rw [hbit, h3]
    simp only [Bool.toNat_true, Nat.one_mul]
    exact Nat.pos_iff_ne_zero.mp (Nat.pos_pow_of_pos _ (by omega))

/-- C8: a received 32-bit status word outside the documented set is surfaced
as the error `UnexpectedStatus(UnknownStatusCode, raw)` with the raw
little-endian value preserved; every documented discriminant parses to its
named variant (`tryFrom` inverts `toU32`). -/
theorem C8_status_code_closed_set :
    (∀ b0 b1 b2 b3 : Nat, StatusCode.tryFrom (leWord4 b0 b1 b2 b3) = none →
       parse_status b0 b1 b2 b3 =
         .error (.UnexpectedStatusRaw StatusCode.UnknownStatusCode.toU32 (leWord4 b0 b1 b2 b3))) ∧
    (∀ (b0 b1 b2 b3 : Nat) (c : StatusCode),
       StatusCode.tryFrom (leWord4 b0 b1 b2 b3) = some c →
       parse_status b0 b1 b2 b3 = .ok c) ∧
    (∀ c : StatusCode, StatusCode.tryFrom c.toU32 = some c) := by
  refine ⟨?_, ?_, ?_⟩
  · intro b0 b1 b2 b3 h
    simp [parse_status, h]
  · intro b0 b1 b2 b3 c h
    simp [parse_status, h]
  · intro c
    cases c <;> decide

/-- Witness for `C8_status_code_closed_set`: the undocumented word 1337 is
surfaced as `UnexpectedStatus(UnknownStatusCode = 0xdeadbeef, 1337)`, the
documented word 10203 parses to `MemoryCumulativeWrite`. -/
theorem C8_status_code_closed_set_witness :
    parse_status 57 5 0 0 =
      .error (.UnexpectedStatusRaw StatusCode.UnknownStatusCode.toU32 (leWord4 57 5 0 0)) ∧
    parse_status 219 39 0 0 = .ok .MemoryCumulativeWrite :=
  ⟨C8_status_code_closed_set.1 57 5 0 0 (by decide),
   C8_status_code_closed_set.2.1 219 39 0 0 .MemoryCumulativeWrite (by decide)⟩

/-! ## The `mask_read_data_phase` session flag (`McuBoot::key_provisioning`) -/

/-- The session flag touched by `key_provisioning`; `McuBoot::new` initializes
it to `false`, and lines 563-565 of mboot.rs are its only writes. -/
structure SessionFlags where
  mask_read_data_phase : Bool
deriving DecidableEq, Repr

/-- The flag handling of `McuBoot::key_provisioning` (mboot.rs, lines 542-569),
with the device exchange abstracted by its results: for `ReadKeyStore` the flag
is never written; for every other operation it is set to `true`, `send_command`
runs, on success the flag is reset to `false` before `read_cmd_response`; a
`send_command` error propagates immediately via `?` with the flag still set. -/
def keyProvisioningFlags (s : SessionFlags) (isReadKeyStore : Bool)
    (sendRes : Except CommunicationError Unit)
    (readRes : Except CommunicationError StatusCode) :
    SessionFlags × Except CommunicationError StatusCode :=
  if isReadKeyStore then
    match sendRes with
    | .error e => (s, .error e)
    | .ok () =>
      match readRes with
      | .error e => (s, .error e)
      | .ok st => (s, .ok st)
  else
    let s1 : SessionFlags := { mask_read_data_phase := true }
    match sendRes with
    | .error e => (s1, .error e)
    | .ok () =>
      let s2 : SessionFlags := { mask_read_data_phase := false }
      match readRes with
      | .error e => (s2, .error e)
      | .ok st => (s2, .ok st)

/-- C10 counterexample: when `send_command` fails inside `key_provisioning`
for an operation other than `ReadKeyStore`, the error propagates with
`mask_read_data_phase` still set to `true` — the operation does not leave the
flag `false` on its `Err` path. -/
theorem C10_mask_left_set_on_send_error :
    ((keyProvisioningFlags ⟨false⟩ false (.error .Timeout) (.ok .Success)).1).mask_read_data_phase =
      true := by
  rfl

/-- C10 as amended: `key_provisioning` for operations other than
`ReadKeyStore` clears `mask_read_data_phase` before returning whenever
`send_command` succeeds — on both the `Ok` and the `Err` path of the
subsequent response read — and `ReadKeyStore` never touches the flag; but if
`send_command` itself fails, the error propagates with the flag still `true`. -/
theorem C10_mask_read_data_phase_flag :
    (∀ (s : SessionFlags) (rks : Bool) (readRes : Except CommunicationError StatusCode),
       ((keyProvisioningFlags s rks (.ok ()) readRes).1).mask_read_data_phase =
         if rks then s.mask_read_data_phase else false) ∧
    (∀ (s : SessionFlags) (readRes : Except CommunicationError StatusCode)
       (e : CommunicationError),
       ((keyProvisioningFlags s false (.error e) readRes).1).mask_read_data_phase = true) := by
  constructor
  · intro s rks readRes
    rcases rks with _ | _ <;> rcases readRes with e | st <;> simp [keyProvisioningFlags]
  · intro s readRes e
    simp [keyProvisioningFlags]

end Mboot
